import Mathlib

/-!
# Hybridnet: pod network attachment handler and remote cluster manager

A shallow embedding of

* `pkg/daemon/server/handle.go` (`handleAdd`, `handleDel`, `errorWrapper`),
* `pkg/rcmanager/rcmanager.go` (`NewRemoteClusterManager`, `Run`, `GetIsReady`,
  `SetIsReady`, `Close`),
* `pkg/ipam/strategy/strategy.go` (`init`, `OwnByStatefulWorkload`,
  `OwnByStatelessWorkload`, `GetKnownOwnReference`),

together with the properties of these functions that the design document states.

Conventions of the embedding.

* A handler run is a value of type `Run`: the list of the externally visible
  actions it performed, in order (sleeps, API reads, the interface configuration
  call, status updates, the response written), and whether it returned or ended
  in a run-time panic.
* Every collaborator that is not part of the sources (API reader and client,
  `configureNic`, `deleteNic`, `net.ParseCIDR`, `net.ParseIP`, ...) is a field of
  the environment, so every theorem holds for every behaviour of it.
* A Go pointer to an `int32` is an `Option Int`; `nil` is `none`.
-/

namespace Hybridnet

/-! ## Data model of the attachment handler -/

/-- Modelled from the spec: the `networkingv1.IPVersion` string type, whose
declaration and two constants `IPv4` and `IPv6` are in the API package outside
these sources. Every other string value is `other`. -/
inductive IPVersion
  | IPv4
  | IPv6
  | other (raw : String)
  deriving DecidableEq, Repr

/-- The fields of `request.PodRequest` that the handler reads. -/
structure PodRequest where
  PodName : String
  PodNamespace : String
  ContainerID : String
  NetNs : String
  deriving DecidableEq, Repr

/-- One address record of the response, `request.IPAddress`. -/
structure IPAddress where
  IP : String
  Mac : String
  Gateway : String
  Protocol : IPVersion
  deriving DecidableEq, Repr

/-- The response body, `request.PodResponse`. -/
structure PodResponse where
  IPAddress : List IPAddress
  HostInterface : String
  Err : String
  deriving DecidableEq, Repr

/-- The address part of an IPInstance spec. `NetID` is a `*int32` in the source. -/
structure Address where
  Version : IPVersion
  IP : String
  Gateway : String
  NetID : Option Int
  MAC : String
  deriving DecidableEq, Repr

structure IPInstanceSpec where
  Network : String
  Address : Address
  deriving DecidableEq, Repr

structure IPInstanceStatus where
  PodName : String
  PodNamespace : String
  SandboxID : String
  deriving DecidableEq, Repr

/-- An IPInstance object: its name, spec and status. -/
structure IPInstance where
  Name : String
  Spec : IPInstanceSpec
  Status : IPInstanceStatus
  deriving DecidableEq, Repr

/-- A pod object, reduced to what the handler reads: its annotations. -/
structure Pod where
  Annotations : List (String × String)
  deriving DecidableEq, Repr

/-- A `net.IP`: its bytes. -/
structure NetIP where
  bytes : List Nat
  deriving DecidableEq, Repr

/-- A `net.IPNet`: network address and mask. -/
structure IPNet where
  IP : NetIP
  Mask : List Nat
  deriving DecidableEq, Repr

/-- The record `containernetwork.IPInfo`. `Gw` is `none` when `net.ParseIP`
returned nil. -/
structure IPInfo where
  Addr : NetIP
  Gw : Option NetIP
  Cidr : IPNet
  deriving DecidableEq, Repr

/-- The map `allocatedIPs`, which only ever has the two keys `IPv4` and `IPv6`;
`none` is the nil entry it is created with. -/
structure AllocatedIPs where
  v4 : Option IPInfo
  v6 : Option IPInfo
  deriving DecidableEq, Repr

/-- A Network object: its name and the mode `GetNetworkMode` reads from it. -/
structure Network where
  Name : String
  Mode : String
  deriving DecidableEq, Repr

/-- The arguments of one `configureNic` call, in the order of the source. -/
structure ConfigureNicArgs where
  podName : String
  podNamespace : String
  netNs : String
  containerID : String
  macAddr : String
  netID : Option Int
  allocatedIPs : AllocatedIPs
  networkMode : String
  deriving DecidableEq, Repr

/-- The externally visible actions of a handler run. -/
inductive Event
  | sleep (nanoseconds : Nat)
  | getPod (name : String) (namespace_ : String)
  | listIPInstances (nodeLabel : String) (podLabel : String)
  | getNetwork (name : String)
  | configureNic (args : ConfigureNicArgs)
  | deleteNic (netNs : String)
  | statusUpdate (obj : IPInstance)
  | writeResponse (status : Nat) (body : PodResponse)
  | writeHeader (status : Nat)
  deriving DecidableEq, Repr

/-- How a run ends: by returning, or by a run-time panic. -/
inductive Exit
  | returned
  | panicked
  deriving DecidableEq, Repr

/-- A run of a handler. -/
structure Run where
  trace : List Event
  exit : Exit
  deriving DecidableEq, Repr

/-- The inbound request: the outcome of `req.ReadEntity(&podRequest)`. -/
structure Request where
  ReadEntity : Except String PodRequest

/-- The handler `cniDaemonHandler` with everything it calls.

* `NodeName` is `cdh.config.NodeName`.
* `GetPod i name namespace` is the result of the `i`-th call (from 0) of
  `cdh.mgrAPIReader.Get` for the pod.
* `ListIPInstances node pod` is the result of `cdh.mgrClient.List` with the two
  matching labels.
* `GetNetwork name` is the result of `cdh.mgrClient.Get` for the network.
* `StatusUpdate k obj` is the result of the `k`-th call (from 0) of
  `cdh.mgrClient.Status().Update`: `none` is a nil error.
* `AnnotationIP` is the constant `constants.AnnotationIP`.
* `freshLoopVar` selects the language semantics of `for ... range`: `true` when
  every iteration has its own variable (Go 1.22 and later, as selected by the
  module file), `false` when the loop has one variable that all iterations share
  (every earlier language version). The module file is not among the sources. -/
structure Env where
  NodeName : String
  AnnotationIP : String
  GetPod : Nat → String → String → Except String Pod
  ListIPInstances : String → String → Except String (List IPInstance)
  GetNetwork : String → Except String Network
  configureNic : ConfigureNicArgs → Except String String
  deleteNic : String → Option String
  StatusUpdate : Nat → IPInstance → Option String
  ParseCIDR : String → Except String (NetIP × IPNet)
  ParseIP : String → Option NetIP
  freshLoopVar : Bool

def StatusOK : Nat := 200

def StatusNoContent : Nat := 204

def StatusBadRequest : Nat := 400

def StatusInternalServerError : Nat := 500

/-! ## `errorWrapper`, `handleAdd`, `handleDel` -/

/-- The method `errorWrapper`: writes the status with a body that carries only
the error text. -/
def errorWrapper (err : String) (status : Nat) : List Event :=
  [Event.writeResponse status { IPAddress := [], HostInterface := "", Err := err }]

/-- The number of polling attempts, `retries := 11`. -/
def retries : Nat := 11

/-- The first sleep, `backOffBase := 5 * time.Microsecond`, in nanoseconds. -/
def backOffBase : Nat := 5 * 1000

/-- The polling loop of `handleAdd` (`for i := 0; i < retries; i++`), with
`n = retries - i` iterations left. The boolean is `true` when the loop was left
(by `break`, or because the condition failed) and `false` when the handler
returned from inside it. -/
def waitCoupled (env : Env) (podRequest : PodRequest) (retries : Nat) :
    Nat → Nat → Nat → List Event × Bool
  | 0, _, _ => ([], true)
  | n + 1, i, backOff =>
    let pre := [Event.sleep backOff, Event.getPod podRequest.PodName podRequest.PodNamespace]
    match env.GetPod i podRequest.PodName podRequest.PodNamespace with
    | .error e =>
      (pre ++ errorWrapper ("failed to get pod " ++ podRequest.PodName ++ "/" ++
        podRequest.PodNamespace ++ ": " ++ e) StatusBadRequest, false)
    | .ok pod =>
      if (pod.Annotations.lookup env.AnnotationIP).isSome then (pre, true)
      else if i = retries - 1 then
        (pre ++ errorWrapper ("failed to wait for pod " ++ podRequest.PodName ++ "/" ++
          podRequest.PodNamespace ++ " be coupled with ip: <nil>") StatusBadRequest, false)
      else
        let rest := waitCoupled env podRequest retries n (i + 1) (backOff * 2)
        (pre ++ rest.1, rest.2)

/-- The local variables of `handleAdd` that the range loop reads and writes.
`affectedIPInstances` holds, for every pointer appended, the value that the
range variable had at that moment. -/
structure LoopState where
  macAddr : String
  netID : Option Int
  allocatedIPs : AllocatedIPs
  networkName : String
  returnIPAddress : List IPAddress
  affectedIPInstances : List IPInstance
  deriving DecidableEq, Repr

/-- The values of the locals before the range loop. -/
def LoopState.init : LoopState :=
  { macAddr := "", netID := none, allocatedIPs := { v4 := none, v6 := none },
    networkName := "", returnIPAddress := [], affectedIPInstances := [] }

/-- What one iteration of a loop body does. -/
inductive Step (σ : Type)
  | next (st : σ)
  | abort (out : List Event)
  | crash

/-- The condition of the `else if` at lines 136-138,
`(netID != p && (netID != nil && *netID != *p)) || macAddr != mac`, evaluated
left to right with short circuit; `none` is the nil dereference of `*p`.
Two equal pointers point to equal values, so for two non-nil pointers the left
disjunct is the comparison of the values. -/
def mismatch (netID : Option Int) (macAddr : String) (a : Address) : Option Bool :=
  match netID, a.NetID with
  | none, _ => some (decide (macAddr ≠ a.MAC))
  | some _, none => none
  | some x, some y => some (decide (x ≠ y) || decide (macAddr ≠ a.MAC))

/-- Whether the instance belongs to the pod of the request (line 131). -/
def matchesPod (podRequest : PodRequest) (ipInstance : IPInstance) : Bool :=
  ipInstance.Status.PodName == podRequest.PodName &&
    ipInstance.Status.PodNamespace == podRequest.PodNamespace

/-- Lines 145-206: the rest of the body for a matching instance, after the MAC
and network id check, with `macAddr` and `netID` already assigned in `st`. -/
def mergeInstance (env : Env) (podRequest : PodRequest) (st : LoopState)
    (ipInstance : IPInstance) : Step LoopState :=
  match env.ParseCIDR ipInstance.Spec.Address.IP with
  | .error e =>
    .abort (errorWrapper ("failed to parse ip address " ++ ipInstance.Spec.Address.IP ++
      " to cidr: " ++ e) StatusInternalServerError)
  | .ok (containerIP, cidrNet) =>
    let gatewayIP := env.ParseIP ipInstance.Spec.Address.Gateway
    let info : IPInfo := { Addr := containerIP, Gw := gatewayIP, Cidr := cidrNet }
    let versioned : Except (List Event) (AllocatedIPs × IPVersion) :=
      match ipInstance.Spec.Address.Version with
      | .IPv4 =>
        if st.allocatedIPs.v4.isSome then
          .error (errorWrapper ("only one ipv4 address for each pod are supported, " ++
            podRequest.PodNamespace ++ "/" ++ podRequest.PodName) StatusInternalServerError)
        else .ok ({ st.allocatedIPs with v4 := some info }, IPVersion.IPv4)
      | .IPv6 =>
        if st.allocatedIPs.v6.isSome then
          .error (errorWrapper ("only one ipv6 address for each pod are supported, " ++
            podRequest.PodNamespace ++ "/" ++ podRequest.PodName) StatusInternalServerError)
        else .ok ({ st.allocatedIPs with v6 := some info }, IPVersion.IPv6)
      | .other raw =>
        .error (errorWrapper ("unsupported ip version " ++ raw ++ " for pod " ++
          podRequest.PodNamespace ++ "/" ++ podRequest.PodName) StatusInternalServerError)
    match versioned with
    | .error out => .abort out
    | .ok (allocated, ipVersion) =>
      let currentNetworkName := ipInstance.Spec.Network
      let appended (networkName : String) : LoopState :=
        { st with
          allocatedIPs := allocated
          networkName := networkName
          returnIPAddress := st.returnIPAddress ++
            [{ IP := ipInstance.Spec.Address.IP, Mac := ipInstance.Spec.Address.MAC,
               Gateway := ipInstance.Spec.Address.Gateway, Protocol := ipVersion }]
          affectedIPInstances := st.affectedIPInstances ++ [ipInstance] }
      if st.networkName = "" then .next (appended currentNetworkName)
      else if st.networkName ≠ currentNetworkName then
        .abort (errorWrapper ("found different networks " ++ currentNetworkName ++ "/" ++
          st.networkName ++ " for pod " ++ podRequest.PodNamespace ++ "/" ++
          podRequest.PodName) StatusInternalServerError)
      else .next (appended st.networkName)

/-- One iteration of the range loop (lines 129-208), the range variable holding
`item`: a matching item is checked and merged. -/
def rangeBody (env : Env) (podRequest : PodRequest) (st : LoopState)
    (item : IPInstance) : Step LoopState :=
  if matchesPod podRequest item then
    if st.netID = none ∧ st.macAddr = "" then
      mergeInstance env podRequest
        { st with netID := item.Spec.Address.NetID, macAddr := item.Spec.Address.MAC } item
    else
      match mismatch st.netID st.macAddr item.Spec.Address with
      | none => .crash
      | some true =>
        .abort (errorWrapper ("mac and netId for all ip instances of pod " ++
          podRequest.PodNamespace ++ "/" ++ podRequest.PodName ++ " should be the same")
          StatusInternalServerError)
      | some false => mergeInstance env podRequest st item
  else .next st

/-- The range loop over `ipInstanceList.Items`. -/
def rangeLoop (env : Env) (podRequest : PodRequest) :
    List IPInstance → LoopState → Step LoopState
  | [], st => .next st
  | item :: rest, st =>
    match rangeBody env podRequest st item with
    | .next st1 => rangeLoop env podRequest rest st1
    | .abort out => .abort out
    | .crash => .crash

/-- The objects the entries of `affectedIPInstances` point to once the range
loop over `items` is over. Every entry is the address of the range variable
(`&ipInstance`, line 206). With one variable per iteration it still holds
the instance appended. With one variable for the whole loop every entry points
to that variable, which holds the item assigned last, the last item of the
list. -/
def pointees (env : Env) (items : List IPInstance) (st : LoopState) : List IPInstance :=
  if env.freshLoopVar then st.affectedIPInstances
  else
    match items.getLast? with
    | some last => st.affectedIPInstances.map (fun _ => last)
    | none => []

/-- Lines 246 and 253: the deep copy of the object, with its status sandbox id
set to the container id. -/
def withSandbox (containerID : String) (ip : IPInstance) : IPInstance :=
  { ip with Status := { ip.Status with SandboxID := containerID } }

/-- The loop of lines 245-259 over the pointed-to objects, `k` updates having
been issued before. `DeepCopy` of a non-nil pointer is never nil, so the branch
of line 247 is not taken. The result is the trace and, when an update failed,
the error response written. -/
def updateStatus (env : Env) (podRequest : PodRequest) :
    List IPInstance → Nat → List Event × Option (List Event)
  | [], _ => ([], none)
  | ip :: rest, k =>
    let newIPInstance : IPInstance := withSandbox podRequest.ContainerID ip
    match env.StatusUpdate k newIPInstance with
    | some e =>
      ([Event.statusUpdate newIPInstance],
        some (errorWrapper ("failed to update IPInstance crd for " ++ newIPInstance.Name ++
          ", " ++ e) StatusInternalServerError))
    | none =>
      let tail := updateStatus env podRequest rest (k + 1)
      (Event.statusUpdate newIPInstance :: tail.1, tail.2)

/-- Lines 210-264 of `handleAdd`: everything after the range loop over `items`. -/
def finishAdd (env : Env) (podRequest : PodRequest) (items : List IPInstance)
    (st : LoopState) : Run :=
  if st.macAddr = "" ∨ st.netID = none then
    ⟨errorWrapper ("no available ip for pod " ++ podRequest.PodNamespace ++ "/" ++
      podRequest.PodName) StatusInternalServerError, .returned⟩
  else
    match env.GetNetwork st.networkName with
    | .error _ =>
      ⟨Event.getNetwork st.networkName ::
        errorWrapper ("cannot get network " ++ st.networkName) StatusInternalServerError,
        .returned⟩
    | .ok network =>
      let args : ConfigureNicArgs :=
        { podName := podRequest.PodName, podNamespace := podRequest.PodNamespace,
          netNs := podRequest.NetNs, containerID := podRequest.ContainerID,
          macAddr := st.macAddr, netID := st.netID, allocatedIPs := st.allocatedIPs,
          networkMode := network.Mode }
      match env.configureNic args with
      | .error e =>
        ⟨[Event.getNetwork st.networkName, Event.configureNic args] ++
          errorWrapper ("failed to configure nic: " ++ e) StatusInternalServerError,
          .returned⟩
      | .ok hostInterface =>
        let updates := updateStatus env podRequest (pointees env items st) 0
        match updates.2 with
        | some out =>
          ⟨[Event.getNetwork st.networkName, Event.configureNic args] ++ updates.1 ++ out,
            .returned⟩
        | none =>
          ⟨[Event.getNetwork st.networkName, Event.configureNic args] ++ updates.1 ++
            [Event.writeResponse StatusOK
              { IPAddress := st.returnIPAddress, HostInterface := hostInterface, Err := "" }],
            .returned⟩

/-- Lines 128-264 of `handleAdd`: the range loop over the listed items and what
follows it. -/
def validateAndConfigure (env : Env) (podRequest : PodRequest)
    (items : List IPInstance) : Run :=
  match rangeLoop env podRequest items LoopState.init with
  | .crash => ⟨[], .panicked⟩
  | .abort out => ⟨out, .returned⟩
  | .next st => finishAdd env podRequest items st

/-- Sequential composition of a trace with the run that follows it. -/
def Run.after (pre : List Event) (r : Run) : Run :=
  ⟨pre ++ r.trace, r.exit⟩

/-- The handler `handleAdd`. -/
def handleAdd (env : Env) (req : Request) : Run :=
  match req.ReadEntity with
  | .error e =>
    ⟨errorWrapper ("failed to parse add request: " ++ e) StatusBadRequest, .returned⟩
  | .ok podRequest =>
    let wait := waitCoupled env podRequest retries retries 0 backOffBase
    if wait.2 then
      match env.ListIPInstances env.NodeName podRequest.PodName with
      | .error e =>
        ⟨wait.1 ++ Event.listIPInstances env.NodeName podRequest.PodName ::
          errorWrapper ("failed to list ip instance for pod " ++ env.NodeName ++ ": " ++ e)
            StatusBadRequest, .returned⟩
      | .ok items =>
        Run.after (wait.1 ++ [Event.listIPInstances env.NodeName podRequest.PodName])
          (validateAndConfigure env podRequest items)
    else ⟨wait.1, .returned⟩

/-- The handler `handleDel`. -/
def handleDel (env : Env) (req : Request) : Run :=
  match req.ReadEntity with
  | .error e =>
    ⟨errorWrapper ("failed to parse del request: " ++ e) StatusBadRequest, .returned⟩
  | .ok podRequest =>
    match env.deleteNic podRequest.NetNs with
    | some e =>
      ⟨Event.deleteNic podRequest.NetNs ::
        errorWrapper ("failed to del container nic for " ++ podRequest.PodName ++ "." ++
          podRequest.PodNamespace ++ ": " ++ e) StatusInternalServerError, .returned⟩
    | none => ⟨[Event.deleteNic podRequest.NetNs, Event.writeHeader StatusNoContent], .returned⟩

/-! ### Observations on a run -/

/-- The response an event writes, if it writes one. -/
def Event.response? : Event → Option (Nat × PodResponse)
  | .writeResponse status body => some (status, body)
  | _ => none

/-- The arguments of the event, if it is a `configureNic` call. -/
def Event.nicCall? : Event → Option ConfigureNicArgs
  | .configureNic args => some args
  | _ => none

/-- The object of the event, if it is a status update. -/
def Event.statusUpdate? : Event → Option IPInstance
  | .statusUpdate obj => some obj
  | _ => none

def Event.isPodRead : Event → Bool
  | .getPod _ _ => true
  | _ => false

def Event.isList : Event → Bool
  | .listIPInstances _ _ => true
  | _ => false

def Event.isNetworkRead : Event → Bool
  | .getNetwork _ => true
  | _ => false

/-- The responses written during a run, in order. -/
def Run.responses (r : Run) : List (Nat × PodResponse) :=
  r.trace.filterMap Event.response?

/-- The arguments of the `configureNic` calls of a run, in order. -/
def Run.nicCalls (r : Run) : List ConfigureNicArgs :=
  r.trace.filterMap Event.nicCall?

/-- The objects passed to the status updates of a run, in order. -/
def Run.statusUpdates (r : Run) : List IPInstance :=
  r.trace.filterMap Event.statusUpdate?

/-- The number of pod reads of a run. -/
def Run.podReads (r : Run) : Nat :=
  r.trace.countP Event.isPodRead

/-- The number of IPInstance list calls of a run. -/
def Run.listCalls (r : Run) : Nat :=
  r.trace.countP Event.isList

/-- The number of network reads of a run. -/
def Run.networkReads (r : Run) : Nat :=
  r.trace.countP Event.isNetworkRead

/-- The instances of a list that belong to the pod of the request. -/
def matching (podRequest : PodRequest) (items : List IPInstance) : List IPInstance :=
  items.filter (matchesPod podRequest)

/-- The address record of an instance. -/
def addressRecord (ip : IPInstance) : IPAddress :=
  { IP := ip.Spec.Address.IP, Mac := ip.Spec.Address.MAC,
    Gateway := ip.Spec.Address.Gateway, Protocol := ip.Spec.Address.Version }

/-- The event of the status update issued for an object. -/
def updateEvent (containerID : String) (ip : IPInstance) : Event :=
  Event.statusUpdate (withSandbox containerID ip)

/-- The sleeps and pod reads of `k` polling attempts, the first sleep being
`backOff` nanoseconds. -/
def pollTrace (podRequest : PodRequest) : Nat → Nat → List Event
  | 0, _ => []
  | k + 1, backOff =>
    Event.sleep backOff :: Event.getPod podRequest.PodName podRequest.PodNamespace ::
      pollTrace podRequest k (backOff * 2)

/-! ## Remote cluster manager (`pkg/rcmanager/rcmanager.go`) -/

/-- The outcome of a Go call: it returns a value, or it panics. -/
inductive Call (α : Type)
  | ret (a : α)
  | panic (msg : String)

/-- Sequencing of calls: a panic ends the sequence. -/
def Call.bind {α β : Type} : Call α → (α → Call β) → Call β
  | .ret a, f => f a
  | .panic msg, _ => .panic msg

instance : Monad Call where
  pure := Call.ret
  bind := Call.bind

/-- The fields of the `RemoteCluster` object that the constructor reads. -/
structure RemoteCluster where
  Name : String
  UID : String
  ClusterName : String
  deriving DecidableEq, Repr

/-- A `rest.Config`, reduced to the host and the user agent. -/
structure RestConfig where
  Host : String
  UserAgent : String
  deriving DecidableEq, Repr

/-- A clientset built from a config. -/
structure Clientset where
  config : RestConfig
  deriving DecidableEq, Repr

/-- The state of a channel that is only ever closed. -/
inductive Chan
  | opened
  | closed
  deriving DecidableEq, Repr

/-- The struct `Meta`. The lock `IsReadyLock` has no content of its own: the
operations that take it are atomic steps of the model. -/
structure Meta where
  ClusterName : String
  RemoteClusterUID : String
  ClusterUUID : String
  StopCh : Chan
  IsReady : Bool
  deriving DecidableEq, Repr

/-- The struct `Manager`: its `Meta`, the clients, the names of the three work
queues, and the run-time state behind its informer handles: whether the informer
factories were started, the current value of the three `HasSynced` functions,
the number of goroutines of `Run` still waiting in `WaitForCacheSync`, and the
number of times the three worker loops were started. The listers are handles on
the same informers and carry no state of their own. -/
structure Manager extends Meta where
  LocalClusterKubeClient : Clientset
  LocalClusterRamaClient : Clientset
  KubeClient : Clientset
  RamaClient : Clientset
  NodeQueue : String
  SubnetQueue : String
  IPQueue : String
  informersStarted : Bool
  NodeSynced : Bool
  SubnetSynced : Bool
  IPSynced : Bool
  waiting : Nat
  workers : Nat
  deriving DecidableEq, Repr

def ControllerName : String := "RemoteClusterManager"

def UserAgentName : String := ControllerName

/-- The library function `restclient.AddUserAgent`. -/
def AddUserAgent (config : RestConfig) (userAgent : String) : RestConfig :=
  { config with UserAgent := userAgent }

/-- What `NewRemoteClusterManager` calls outside these sources. Each call may
panic. `BuildClusterConfig` and `GetUUID` are `utils.BuildClusterConfig` and
`utils.GetUUID`; the two constructors are `kubeclientset.NewForConfigOrDie` and
`versioned.NewForConfigOrDie`. -/
structure ClusterDeps where
  BuildClusterConfig : RemoteCluster → Call (Except String RestConfig)
  NewKubeForConfigOrDie : RestConfig → Call Clientset
  NewRamaForConfigOrDie : RestConfig → Call Clientset
  GetUUID : Clientset → Call (Except String String)

/-- The body of `NewRemoteClusterManager` (lines 93-182), before the deferred
function runs. `rc` is a pointer and `localClusterKubeClient` an interface
value; dereferencing `rc` (line 93) and calling a method of the interface
(line 102) panic when they are nil. -/
def newRemoteClusterManagerBody (deps : ClusterDeps) (rc : Option RemoteCluster)
    (localClusterKubeClient : Option Clientset) (localClusterRamaClient : Clientset) :
    Call (Option Manager × Option String) :=
  match rc with
  | none => .panic "invalid memory address or nil pointer dereference"
  | some rc => do
    let built ← deps.BuildClusterConfig rc
    match built with
    | .error err => pure (none, some err)
    | .ok config =>
      match localClusterKubeClient with
      | none => .panic "invalid memory address or nil pointer dereference"
      | some localKube => do
        let kubeClient ← deps.NewKubeForConfigOrDie config
        let ramaClient ← deps.NewRamaForConfigOrDie (AddUserAgent config UserAgentName)
        let resolved ← deps.GetUUID kubeClient
        match resolved with
        | .error err => pure (none, some err)
        | .ok uuid =>
          let rcMgr : Manager :=
            { ClusterName := rc.Name, RemoteClusterUID := rc.UID, ClusterUUID := uuid,
              StopCh := .opened, IsReady := false,
              LocalClusterKubeClient := localKube,
              LocalClusterRamaClient := localClusterRamaClient,
              KubeClient := kubeClient, RamaClient := ramaClient,
              NodeQueue := rc.ClusterName ++ "-node",
              SubnetQueue := rc.ClusterName ++ "-subnet",
              IPQueue := rc.ClusterName ++ "-ipinstance",
              informersStarted := false, NodeSynced := false, SubnetSynced := false,
              IPSynced := false, waiting := 0, workers := 0 }
          pure (some rcMgr, none)

/-- The constructor `NewRemoteClusterManager`. Its two results are unnamed, so
when the deferred function recovers a panic (lines 87-92) the caller receives
the zero value of each: a nil manager and a nil error. -/
def NewRemoteClusterManager (deps : ClusterDeps) (rc : Option RemoteCluster)
    (localClusterKubeClient : Option Clientset) (localClusterRamaClient : Clientset) :
    Option Manager × Option String :=
  match newRemoteClusterManagerBody deps rc localClusterKubeClient localClusterRamaClient with
  | .ret results => results
  | .panic _ => (none, none)

/-- The method `GetIsReady`. -/
def Manager.GetIsReady (m : Manager) : Bool :=
  m.IsReady

/-- The method `SetIsReady`. -/
def Manager.SetIsReady (m : Manager) (val : Bool) : Manager :=
  { m with IsReady := val }

/-- The method `Run`: one more goroutine waits for the three caches, and both
informer factories are started. -/
def Manager.Run (m : Manager) : Manager :=
  { m with waiting := m.waiting + 1, informersStarted := true }

/-- The method `Close`: closing a closed channel panics. -/
def Manager.Close (m : Manager) : Call Manager :=
  match m.StopCh with
  | .closed => .panic "close of closed channel"
  | .opened => .ret { m with StopCh := .closed }

/-- The three informers of a manager. -/
inductive Kind
  | node
  | subnet
  | ipInstance
  deriving DecidableEq, Repr

/-- An informer reports its cache synced; it does so only once started and while
the stop channel is open. -/
def Manager.cacheSynced (m : Manager) (k : Kind) : Manager :=
  if m.informersStarted ∧ m.StopCh = .opened then
    match k with
    | .node => { m with NodeSynced := true }
    | .subnet => { m with SubnetSynced := true }
    | .ipInstance => { m with IPSynced := true }
  else m

/-- One goroutine started by `Run` (lines 189-197) looks at
`cache.WaitForCacheSync`: with the stop channel closed it gives up, with all
three caches synced it starts the three worker loops, otherwise it keeps
waiting. -/
def Manager.waiterStep (m : Manager) : Manager :=
  if m.waiting = 0 then m
  else if m.StopCh = .closed then { m with waiting := m.waiting - 1 }
  else if m.NodeSynced ∧ m.SubnetSynced ∧ m.IPSynced then
    { m with waiting := m.waiting - 1, workers := m.workers + 1 }
  else m

/-- The operations on a manager: the four methods, and the two kinds of steps
its goroutines take on their own. -/
inductive Op
  | Run
  | Close
  | GetIsReady
  | SetIsReady (val : Bool)
  | cacheSynced (k : Kind)
  | waiterStep
  deriving DecidableEq, Repr

/-- The state of a sequence of operations: the manager, and the values that the
`GetIsReady` calls returned so far. -/
structure Session where
  manager : Manager
  observed : List Bool
  deriving DecidableEq, Repr

/-- One operation. -/
def Session.step (s : Session) : Op → Call Session
  | .Run => .ret { s with manager := s.manager.Run }
  | .Close =>
    match s.manager.Close with
    | .ret m => .ret { s with manager := m }
    | .panic msg => .panic msg
  | .GetIsReady => .ret { s with observed := s.observed ++ [s.manager.GetIsReady] }
  | .SetIsReady val => .ret { s with manager := s.manager.SetIsReady val }
  | .cacheSynced k => .ret { s with manager := s.manager.cacheSynced k }
  | .waiterStep => .ret { s with manager := s.manager.waiterStep }

/-- A sequence of operations, which ends at the first panic: the result is the
session reached and whether all operations were carried out. -/
def Session.exec : Session → List Op → Session × Exit
  | s, [] => (s, .returned)
  | s, op :: rest =>
    match s.step op with
    | .ret s1 => Session.exec s1 rest
    | .panic _ => (s, .panicked)

/-- The states of the per-cluster state machine. -/
inductive Phase
  | Constructed
  | Syncing
  | Running
  | Closed
  deriving DecidableEq, Repr

/-- The state of the per-cluster state machine. The source does not store it;
it is read off the manager as the design describes the states: Closed once the
cancellation signal fired, Running once all three caches report synced, Syncing
once the informers were started, Constructed before. -/
def Manager.phase (m : Manager) : Phase :=
  if m.StopCh = .closed then .Closed
  else if m.NodeSynced ∧ m.SubnetSynced ∧ m.IPSynced then .Running
  else if m.informersStarted then .Syncing
  else .Constructed

/-- Whether an operation is a call of `SetIsReady`. -/
def Op.isSet : Op → Bool
  | .SetIsReady _ => true
  | _ => false

/-! ## Concrete scenarios -/

/-- The request of the scenario: pod `p1` in namespace `ns1`, sandbox `abc`. -/
def scenarioRequest : Request :=
  { ReadEntity := .ok { PodName := "p1", PodNamespace := "ns1", ContainerID := "abc",
                        NetNs := "/proc/4242/ns/net" } }

/-- An instance of pod `p1/ns1` on network `net-a`. -/
def scenarioInstance (name : String) (version : IPVersion) (ip gateway mac : String)
    (netID : Option Int) : IPInstance :=
  { Name := name,
    Spec := { Network := "net-a",
              Address := { Version := version, IP := ip, Gateway := gateway,
                           NetID := netID, MAC := mac } },
    Status := { PodName := "p1", PodNamespace := "ns1", SandboxID := "" } }

/-- The IPv4 instance of the scenario. -/
def scenarioV4 : IPInstance :=
  scenarioInstance "p1-v4" .IPv4 "10.0.0.5/24" "10.0.0.1" "aa:bb:cc:dd:ee:ff" (some 7)

/-- An IPv6 instance with the MAC and network id of `scenarioV4`. -/
def scenarioV6 : IPInstance :=
  scenarioInstance "p1-v6" .IPv6 "fd00::5/64" "fd00::1" "aa:bb:cc:dd:ee:ff" (some 7)

/-- An environment in which every collaborator succeeds: the pod carries the
annotation from the first read on, the list call returns `items`, the two
addresses of the scenario parse, the interface configuration returns `veth0`. -/
def scenarioEnv (items : List IPInstance) (freshLoopVar : Bool) : Env :=
  { NodeName := "node1",
    AnnotationIP := "ip-assigned",
    GetPod := fun _ _ _ => .ok { Annotations := [("ip-assigned", "true")] },
    ListIPInstances := fun _ _ => .ok items,
    GetNetwork := fun name => .ok { Name := name, Mode := "vlan" },
    configureNic := fun _ => .ok "veth0",
    deleteNic := fun _ => none,
    StatusUpdate := fun _ _ => none,
    ParseCIDR := fun s =>
      if s = "10.0.0.5/24" then
        .ok (⟨[10, 0, 0, 5]⟩, ⟨⟨[10, 0, 0, 0]⟩, [255, 255, 255, 0]⟩)
      else if s = "fd00::5/64" then
        .ok (⟨[253, 0, 0, 0, 0, 0, 0, 0, 0, 0, 0, 0, 0, 0, 0, 5]⟩,
             ⟨⟨[253, 0, 0, 0, 0, 0, 0, 0, 0, 0, 0, 0, 0, 0, 0, 0]⟩,
              [255, 255, 255, 255, 255, 255, 255, 255, 0, 0, 0, 0, 0, 0, 0, 0]⟩)
      else .error ("invalid CIDR address: " ++ s),
    ParseIP := fun s =>
      if s = "10.0.0.1" then some ⟨[10, 0, 0, 1]⟩
      else if s = "fd00::1" then some ⟨[253, 0, 0, 0, 0, 0, 0, 0, 0, 0, 0, 0, 0, 0, 0, 1]⟩
      else none,
    freshLoopVar := freshLoopVar }

/-- The environment of the scenario with a pod that never carries the
annotation. -/
def uncoupledEnv : Env :=
  { scenarioEnv [scenarioV4] false with GetPod := fun _ _ _ => .ok { Annotations := [] } }

/-- The response of the scenario: the one IPv4 record and the interface name. -/
def scenarioResponse : PodResponse :=
  { IPAddress := [{ IP := "10.0.0.5/24", Mac := "aa:bb:cc:dd:ee:ff", Gateway := "10.0.0.1",
                    Protocol := .IPv4 }],
    HostInterface := "veth0", Err := "" }

/-- An IPv6 instance of pod `p1/ns1` with the MAC and network id of
`scenarioV4`, on another network. -/
def scenarioV6OtherNetwork : IPInstance :=
  { scenarioV6 with Spec := { scenarioV6.Spec with Network := "net-b" } }

/-- The pod request that `scenarioRequest` parses to. -/
def scenarioPodRequest : PodRequest :=
  { PodName := "p1", PodNamespace := "ns1", ContainerID := "abc", NetNs := "/proc/4242/ns/net" }

/-- A second IPv4 instance of pod `p1/ns1` with the MAC of `scenarioV4` and no
network id. -/
def scenarioV4NoNetID : IPInstance :=
  scenarioInstance "p1-v4-b" .IPv4 "10.0.0.5/24" "10.0.0.1" "aa:bb:cc:dd:ee:ff" none

/-- An IPv6 instance of pod `p1/ns1` with the MAC of `scenarioV4` and no network
id. -/
def scenarioV6NoNetID : IPInstance :=
  scenarioInstance "p1-v6" .IPv6 "fd00::5/64" "fd00::1" "aa:bb:cc:dd:ee:ff" none

/-- An IPv6 instance of pod `p1/ns1` with another MAC and no network id. -/
def scenarioV6OtherMAC : IPInstance :=
  scenarioInstance "p1-v6" .IPv6 "fd00::5/64" "fd00::1" "11:22:33:44:55:66" none

/-- An IPv4 instance of pod `p1/ns1` with an empty MAC and no network id. -/
def scenarioV4Blank : IPInstance :=
  scenarioInstance "p1-v4" .IPv4 "10.0.0.5/24" "10.0.0.1" "" none

/-- An instance of a pod named `p1` in another namespace, on the same node. -/
def otherPodInstance : IPInstance :=
  { Name := "p1-other",
    Spec := { Network := "net-a",
              Address := { Version := .IPv4, IP := "10.0.0.9/24", Gateway := "10.0.0.1",
                           NetID := some 7, MAC := "aa:bb:cc:00:00:09" } },
    Status := { PodName := "p1", PodNamespace := "ns2", SandboxID := "xyz" } }

/-- A remote cluster descriptor. -/
def scenarioCluster : RemoteCluster :=
  { Name := "cluster-b", UID := "uid-b", ClusterName := "" }

/-- Collaborators of the constructor that all succeed. -/
def scenarioDeps : ClusterDeps :=
  { BuildClusterConfig := fun _ => .ret (.ok { Host := "https://cluster-b:6443", UserAgent := "" }),
    NewKubeForConfigOrDie := fun config => .ret { config := config },
    NewRamaForConfigOrDie := fun config => .ret { config := config },
    GetUUID := fun _ => .ret (.ok "uuid-b") }

/-- Collaborators of the constructor with a cluster config from which no client
can be built: `NewForConfigOrDie` panics. -/
def brokenConfigDeps : ClusterDeps :=
  { scenarioDeps with
    NewKubeForConfigOrDie := fun _ => .panic "invalid configuration: no server found" }

/-- The clientset of the local cluster. -/
def localClientset : Clientset :=
  { config := { Host := "https://cluster-a:6443", UserAgent := "" } }

/-- The manager that the constructor builds in the scenario. -/
def scenarioManager : Manager :=
  { ClusterName := "cluster-b", RemoteClusterUID := "uid-b", ClusterUUID := "uuid-b",
    StopCh := .opened, IsReady := false,
    LocalClusterKubeClient := localClientset, LocalClusterRamaClient := localClientset,
    KubeClient := { config := { Host := "https://cluster-b:6443", UserAgent := "" } },
    RamaClient :=
      { config := { Host := "https://cluster-b:6443", UserAgent := "RemoteClusterManager" } },
    NodeQueue := "-node", SubnetQueue := "-subnet", IPQueue := "-ipinstance",
    informersStarted := false, NodeSynced := false, SubnetSynced := false, IPSynced := false,
    waiting := 0, workers := 0 }

/-- Whether the event writes to the response: a status with an entity
(`WriteHeaderAndEntity`), or a status alone (`WriteHeader`). -/
def Event.isWrite : Event → Bool
  | .writeResponse _ _ => true
  | .writeHeader _ => true
  | _ => false

/-- The number of writes to the response during a run. -/
def Run.writes (r : Run) : Nat :=
  r.trace.countP Event.isWrite

/-- Whether a status is a success status, one of the 2xx codes. -/
def successStatus (status : Nat) : Bool :=
  decide (200 ≤ status) && decide (status < 300)

/-- A trace whose only write to the response is its last event, which is the
200 response with an empty error text, or a 400 or 500 response that carries a
non-empty error text and nothing else. -/
def EndsWithResponse (t : List Event) : Prop :=
  ∃ pre status body, t = pre ++ [Event.writeResponse status body] ∧
    pre.countP Event.isWrite = 0 ∧
    ((status = StatusOK ∧ body.Err = "") ∨
      ((status = StatusBadRequest ∨ status = StatusInternalServerError) ∧
        body.Err ≠ "" ∧ body.IPAddress = [] ∧ body.HostInterface = ""))

/-! ## Workload kinds (`pkg/ipam/strategy/strategy.go`) -/

namespace Strategy

/-- An owner reference, `metav1.OwnerReference`; `Controller` is a `*bool`. -/
structure OwnerReference where
  APIVersion : String
  Kind : String
  Name : String
  UID : String
  Controller : Option Bool
  deriving DecidableEq, Repr

/-- A pod object, reduced to its name, namespace and owner references. -/
structure Pod where
  Name : String
  Namespace : String
  OwnerReferences : List OwnerReference
  deriving DecidableEq, Repr

/-- The library function `metav1.GetControllerOf`: the first owner reference
whose `Controller` is set and true, nil when there is none. -/
def GetControllerOf (pod : Pod) : Option OwnerReference :=
  pod.OwnerReferences.find? (fun ref => ref.Controller == some true)

/-- The pieces of a text between its commas: one more piece than it has
commas. -/
def splitComma : List Char → List (List Char)
  | [] => [[]]
  | c :: cs =>
    if c = ',' then [] :: splitComma cs
    else
      match splitComma cs with
      | [] => [[c]]
      | piece :: pieces => (c :: piece) :: pieces

/-- The library call `strings.Split(s, ",")`. The separator is one byte that
occurs in no longer UTF-8 sequence, so splitting the characters is splitting the
bytes. -/
def Split (s : String) : List String :=
  (splitComma s.data).map String.mk

/-- The assignment `m[kind] = true` on a `map[string]bool` in which every key
present has the value true: the map is the list of its keys. -/
def setTrue (m : List String) (kind : String) : List String :=
  if m.contains kind then m else m ++ [kind]

/-- The loops of lines 48-53 and 55-60 over the pieces of a split. -/
def addKinds (m : List String) : List String → List String
  | [] => m
  | kind :: rest => if 0 < kind.length then addKinds (setTrue m kind) rest else addKinds m rest

/-- The package-level variables of lines 28-34. The two maps are lists of their
keys; indexing a key that is absent gives false. -/
structure Package where
  statefulWorkloadKindVar : String
  statelessWorkloadKindVar : String
  StatefulWorkloadKind : List String
  StatelessWorkloadKind : List String
  DefaultIPRetain : Bool
  deriving DecidableEq, Repr

/-- The variables as declared: the two texts with their initial values, the
maps nil, the boolean false. -/
def Package.declared : Package :=
  { statefulWorkloadKindVar := "StatefulSet", statelessWorkloadKindVar := "",
    StatefulWorkloadKind := [], StatelessWorkloadKind := [], DefaultIPRetain := false }

/-- The function `init` (lines 36-61). Registering a flag stores its default in
the variable: `true` for `DefaultIPRetain`, and for the two texts the value they
already have. The maps are then made and filled from the two texts. -/
def init (p : Package) : Package :=
  { p with
    DefaultIPRetain := true
    StatefulWorkloadKind := addKinds [] (Split p.statefulWorkloadKindVar)
    StatelessWorkloadKind := addKinds [] (Split p.statelessWorkloadKindVar) }

/-- The values given on the command line to the three flags `--default-ip-retain`,
`--stateful-workload-kinds` and `--stateless-workload-kinds`; `none` for a flag
that is not given. -/
structure CommandLine where
  defaultIPRetain : Option Bool
  statefulWorkloadKinds : Option String
  statelessWorkloadKinds : Option String
  deriving DecidableEq, Repr

/-- The library call `pflag.Parse()`: every flag given on the command line is
stored in the variable it was registered with. -/
def Parse (args : CommandLine) (p : Package) : Package :=
  { p with
    DefaultIPRetain := args.defaultIPRetain.getD p.DefaultIPRetain
    statefulWorkloadKindVar := args.statefulWorkloadKinds.getD p.statefulWorkloadKindVar
    statelessWorkloadKindVar := args.statelessWorkloadKinds.getD p.statelessWorkloadKindVar }

/-- The package state of a running program. The language runs `init` once the
package variables are initialised and before `main`; the command line can only
be parsed once the flags are registered, which `init` does, so it is parsed
after `init` has returned. -/
def start (args : CommandLine) : Package :=
  Parse args (init Package.declared)

/-- The function `OwnByStatefulWorkload`. -/
def OwnByStatefulWorkload (p : Package) (pod : Pod) : Bool :=
  match GetControllerOf pod with
  | none => false
  | some ref => p.StatefulWorkloadKind.contains ref.Kind

/-- The function `OwnByStatelessWorkload`. -/
def OwnByStatelessWorkload (p : Package) (pod : Pod) : Bool :=
  match GetControllerOf pod with
  | none => false
  | some ref => p.StatelessWorkloadKind.contains ref.Kind

/-- The function `GetKnownOwnReference`. -/
def GetKnownOwnReference (p : Package) (pod : Pod) : Option OwnerReference :=
  if OwnByStatefulWorkload p pod then GetControllerOf pod else none

/-- The non-empty comma-separated entries of a flag value, in the words of the
claim about the flag. -/
def flagEntries (value : String) : List String :=
  (Split value).filter (fun entry => entry ≠ "")

/-- A pod whose controller is an object of the given kind. -/
def podControlledBy (kind : String) : Pod :=
  { Name := "web-0", Namespace := "ns1",
    OwnerReferences :=
      [{ APIVersion := "v1", Kind := "ConfigMap", Name := "settings", UID := "uid-0",
         Controller := none },
       { APIVersion := "apps/v1", Kind := kind, Name := "web", UID := "uid-1",
         Controller := some true }] }

/-- A command line that gives only `--stateful-workload-kinds`. -/
def statefulKindsFlag (value : String) : CommandLine :=
  { defaultIPRetain := none, statefulWorkloadKinds := some value,
    statelessWorkloadKinds := none }

end Strategy

/-! # Properties -/

/-! ## The polling loop -/

/-- Shape of the polling loop's result: some attempts, followed by a 400
response exactly when the handler returned from inside the loop. -/
theorem waitCoupled_shape (env : Env) (pr : PodRequest) (R : Nat) :
    ∀ (n i b : Nat), ∃ k msg, k ≤ n ∧
      (waitCoupled env pr R n i b).1 = pollTrace pr k b ++
        (if (waitCoupled env pr R n i b).2 then [] else errorWrapper msg StatusBadRequest) := by
  intro n
  induction n with
  | zero => intro i b; exact ⟨0, "", le_refl _, by simp [waitCoupled, pollTrace]⟩
  | succ n ih =>
    intro i b
    unfold waitCoupled
    cases hget : env.GetPod i pr.PodName pr.PodNamespace with
    | error e =>
      exact ⟨1, _, by omega, by simp [pollTrace]; rfl⟩
    | ok pod =>
      by_cases hann : (pod.Annotations.lookup env.AnnotationIP).isSome = true
      · exact ⟨1, "", by omega, by simp [hann, pollTrace]⟩
      · by_cases hlast : i = R - 1
        · exact ⟨1, _, by omega, by simp [hann, hlast, pollTrace]; rfl⟩
        · obtain ⟨k, msg, hk, hshape⟩ := ih (i + 1) (b * 2)
          refine ⟨k + 1, msg, by omega, ?_⟩
          simp only [hann, hlast, if_false, Bool.false_eq_true]
          simp only [pollTrace, hshape]
          simp

/-- A pod that is read without the annotation in every remaining attempt makes
the loop use all of them and end with the 400 response of line 112. -/
theorem waitCoupled_never (env : Env) (pr : PodRequest) (R : Nat)
    (hpod : ∀ j, j < R → ∃ pod, env.GetPod j pr.PodName pr.PodNamespace = .ok pod ∧
      pod.Annotations.lookup env.AnnotationIP = none) :
    ∀ (n i b : Nat), i + (n + 1) = R →
      waitCoupled env pr R (n + 1) i b =
        (pollTrace pr (n + 1) b ++
          errorWrapper ("failed to wait for pod " ++ pr.PodName ++ "/" ++
            pr.PodNamespace ++ " be coupled with ip: <nil>") StatusBadRequest, false) := by
  intro n
  induction n with
  | zero =>
    intro i b hi
    obtain ⟨pod, hget, hann⟩ := hpod i (by omega)
    have hlast : i = R - 1 := by omega
    unfold waitCoupled
    simp [hget, hann, ← hlast, pollTrace]
  | succ n ih =>
    intro i b hi
    obtain ⟨pod, hget, hann⟩ := hpod i (by omega)
    have hlast : ¬ i = R - 1 := by omega
    unfold waitCoupled
    simp only [hget, hann, Option.isSome_none, Bool.false_eq_true, if_false, hlast]
    rw [ih (i + 1) (b * 2) (by omega)]
    simp [pollTrace]

/-- A pod that carries the annotation at attempt `k`, after `k` reads without
it, makes the loop end by `break` after `k + 1` attempts. -/
theorem waitCoupled_coupled (env : Env) (pr : PodRequest) (R : Nat) :
    ∀ (k n i b : Nat), k < n → i + n = R →
      (∀ j, j < k → ∃ pod, env.GetPod (i + j) pr.PodName pr.PodNamespace = .ok pod ∧
        pod.Annotations.lookup env.AnnotationIP = none) →
      (∃ pod, env.GetPod (i + k) pr.PodName pr.PodNamespace = .ok pod ∧
        (pod.Annotations.lookup env.AnnotationIP).isSome = true) →
      waitCoupled env pr R n i b = (pollTrace pr (k + 1) b, true) := by
  intro k
  induction k with
  | zero =>
    intro n i b hk _ _ hcoupled
    obtain ⟨pod, hget, hann⟩ := hcoupled
    obtain ⟨m, rfl⟩ : ∃ m, n = m + 1 := ⟨n - 1, by omega⟩
    unfold waitCoupled
    simp only [Nat.add_zero] at hget
    simp [hget, hann, pollTrace]
  | succ k ih =>
    intro n i b hk hi hbefore hcoupled
    obtain ⟨m, rfl⟩ : ∃ m, n = m + 1 := ⟨n - 1, by omega⟩
    obtain ⟨pod, hget, hann⟩ := hbefore 0 (by omega)
    have hlast : ¬ i = R - 1 := by omega
    unfold waitCoupled
    simp only [Nat.add_zero] at hget
    simp only [hget, hann, Option.isSome_none, Bool.false_eq_true, if_false, hlast]
    rw [ih m (i + 1) (b * 2) (by omega) (by omega)
      (fun j hj => by
        have := hbefore (j + 1) (by omega)
        rwa [show i + (j + 1) = i + 1 + j by omega] at this)
      (by rwa [show i + (k + 1) = i + 1 + k by omega] at hcoupled)]
    simp [pollTrace]

theorem pollTrace_podReads (pr : PodRequest) :
    ∀ (k b : Nat), (pollTrace pr k b).countP Event.isPodRead = k := by
  intro k
  induction k with
  | zero => intro b; simp [pollTrace]
  | succ k ih => intro b; simp [pollTrace, List.countP_cons, Event.isPodRead, ih]

theorem pollTrace_listCalls (pr : PodRequest) :
    ∀ (k b : Nat), (pollTrace pr k b).countP Event.isList = 0 := by
  intro k
  induction k with
  | zero => intro b; simp [pollTrace]
  | succ k ih => intro b; simp [pollTrace, List.countP_cons, Event.isList, ih]

theorem pollTrace_networkReads (pr : PodRequest) :
    ∀ (k b : Nat), (pollTrace pr k b).countP Event.isNetworkRead = 0 := by
  intro k
  induction k with
  | zero => intro b; simp [pollTrace]
  | succ k ih => intro b; simp [pollTrace, List.countP_cons, Event.isNetworkRead, ih]

theorem pollTrace_responses (pr : PodRequest) :
    ∀ (k b : Nat), (pollTrace pr k b).filterMap Event.response? = [] := by
  intro k
  induction k with
  | zero => intro b; simp [pollTrace]
  | succ k ih => intro b; simp [pollTrace, List.filterMap_cons, Event.response?, ih]

theorem pollTrace_nicCalls (pr : PodRequest) :
    ∀ (k b : Nat), (pollTrace pr k b).filterMap Event.nicCall? = [] := by
  intro k
  induction k with
  | zero => intro b; simp [pollTrace]
  | succ k ih => intro b; simp [pollTrace, List.filterMap_cons, Event.nicCall?, ih]

theorem pollTrace_statusUpdates (pr : PodRequest) :
    ∀ (k b : Nat), (pollTrace pr k b).filterMap Event.statusUpdate? = [] := by
  intro k
  induction k with
  | zero => intro b; simp [pollTrace]
  | succ k ih => intro b; simp [pollTrace, List.filterMap_cons, Event.statusUpdate?, ih]

/-- C6. When the request parses and every one of the 11 pod reads succeeds
without the IP-assigned annotation, `handleAdd` reads the pod exactly 11 times
(each read after a sleep twice as long as the one before, starting at 5
microseconds), then writes a 400 response and returns; it performs no IPInstance
list, no network get, no `configureNic` call and no status update. -/
theorem handleAdd_never_coupled (env : Env) (req : Request) (podRequest : PodRequest)
    (hparse : req.ReadEntity = .ok podRequest)
    (hpod : ∀ i, i < retries → ∃ pod,
      env.GetPod i podRequest.PodName podRequest.PodNamespace = .ok pod ∧
      pod.Annotations.lookup env.AnnotationIP = none) :
    ∃ body : PodResponse,
      (handleAdd env req).trace =
        pollTrace podRequest 11 5000 ++ [Event.writeResponse 400 body] ∧
      (handleAdd env req).exit = .returned ∧
      (handleAdd env req).podReads = 11 ∧
      (handleAdd env req).responses = [(400, body)] ∧
      (handleAdd env req).listCalls = 0 ∧
      (handleAdd env req).networkReads = 0 ∧
      (handleAdd env req).nicCalls = [] ∧
      (handleAdd env req).statusUpdates = [] := by
  have hwait := waitCoupled_never env podRequest retries hpod 10 0 backOffBase (by simp [retries])
  have hrun : handleAdd env req =
      ⟨pollTrace podRequest 11 5000 ++ errorWrapper ("failed to wait for pod " ++
        podRequest.PodName ++ "/" ++ podRequest.PodNamespace ++
        " be coupled with ip: <nil>") StatusBadRequest, .returned⟩ := by
    unfold handleAdd
    simp only [hparse]
    have h11 : retries = 10 + 1 := rfl
    rw [h11] at hwait ⊢
    rw [hwait]
    simp [backOffBase]
  refine ⟨{ IPAddress := [], HostInterface := "", Err := "failed to wait for pod " ++
    podRequest.PodName ++ "/" ++ podRequest.PodNamespace ++ " be coupled with ip: <nil>" },
    ?_, ?_, ?_, ?_, ?_, ?_, ?_, ?_⟩
  · rw [hrun]; rfl
  · rw [hrun]
  · rw [hrun]
    simp [Run.podReads, errorWrapper, List.countP_append, pollTrace_podReads, Event.isPodRead,
      List.countP_cons]
  · rw [hrun]
    simp [Run.responses, errorWrapper, List.filterMap_append, pollTrace_responses,
      Event.response?, StatusBadRequest]
  · rw [hrun]
    simp [Run.listCalls, errorWrapper, List.countP_append, pollTrace_listCalls, Event.isList,
      List.countP_cons]
  · rw [hrun]
    simp [Run.networkReads, errorWrapper, List.countP_append, pollTrace_networkReads,
      Event.isNetworkRead, List.countP_cons]
  · rw [hrun]
    simp [Run.nicCalls, errorWrapper, List.filterMap_append, pollTrace_nicCalls,
      Event.nicCall?]
  · rw [hrun]
    simp [Run.statusUpdates, errorWrapper, List.filterMap_append, pollTrace_statusUpdates,
      Event.statusUpdate?]

/-- Witness of C6: the scenario request against a pod that is never annotated. -/
theorem handleAdd_never_coupled_witness :
    ∃ body : PodResponse,
      (handleAdd uncoupledEnv scenarioRequest).trace =
        pollTrace ⟨"p1", "ns1", "abc", "/proc/4242/ns/net"⟩ 11 5000 ++
          [Event.writeResponse 400 body] ∧
      (handleAdd uncoupledEnv scenarioRequest).exit = .returned ∧
      (handleAdd uncoupledEnv scenarioRequest).podReads = 11 ∧
      (handleAdd uncoupledEnv scenarioRequest).responses = [(400, body)] ∧
      (handleAdd uncoupledEnv scenarioRequest).listCalls = 0 ∧
      (handleAdd uncoupledEnv scenarioRequest).networkReads = 0 ∧
      (handleAdd uncoupledEnv scenarioRequest).nicCalls = [] ∧
      (handleAdd uncoupledEnv scenarioRequest).statusUpdates = [] :=
  handleAdd_never_coupled uncoupledEnv scenarioRequest ⟨"p1", "ns1", "abc", "/proc/4242/ns/net"⟩
    rfl (fun _ _ => ⟨{ Annotations := [] }, rfl, rfl⟩)

/-! ## The range loop -/

/-- What a completed merge of a matching instance leaves in the locals. -/
theorem mergeInstance_next (env : Env) (pr : PodRequest) (st st' : LoopState) (x : IPInstance)
    (h : mergeInstance env pr st x = .next st') :
    st'.macAddr = st.macAddr ∧ st'.netID = st.netID ∧
    st'.returnIPAddress = st.returnIPAddress ++ [addressRecord x] ∧
    st'.affectedIPInstances = st.affectedIPInstances ++ [x] ∧
    st'.networkName = x.Spec.Network ∧
    (st.networkName = "" ∨ st.networkName = x.Spec.Network) ∧
    ((x.Spec.Address.Version = .IPv4 ∧ st.allocatedIPs.v4 = none ∧
        st'.allocatedIPs.v4.isSome = true ∧ st'.allocatedIPs.v6 = st.allocatedIPs.v6) ∨
     (x.Spec.Address.Version = .IPv6 ∧ st.allocatedIPs.v6 = none ∧
        st'.allocatedIPs.v6.isSome = true ∧ st'.allocatedIPs.v4 = st.allocatedIPs.v4)) := by
  unfold mergeInstance at h
  cases hp : env.ParseCIDR x.Spec.Address.IP with
  | error e => simp [hp] at h
  | ok parsed =>
    obtain ⟨containerIP, cidrNet⟩ := parsed
    simp only [hp] at h
    cases hv : x.Spec.Address.Version with
    | IPv4 =>
      simp only [hv] at h
      cases h4 : st.allocatedIPs.v4 with
      | some info => simp [h4] at h
      | none =>
        simp only [h4, Option.isSome_none, Bool.false_eq_true, if_false] at h
        by_cases hn : st.networkName = ""
        · simp only [hn, if_true] at h
          injection h with h
          subst h
          simp [addressRecord, hv, hn]
        · by_cases hd : st.networkName = x.Spec.Network
          · rw [if_neg hn, if_neg (not_not.mpr hd)] at h
            injection h with h
            subst h
            simp [addressRecord, hv, hd]
          · simp [hn, hd] at h
    | IPv6 =>
      simp only [hv] at h
      cases h6 : st.allocatedIPs.v6 with
      | some info => simp [h6] at h
      | none =>
        simp only [h6, Option.isSome_none, Bool.false_eq_true, if_false] at h
        by_cases hn : st.networkName = ""
        · simp only [hn, if_true] at h
          injection h with h
          subst h
          simp [addressRecord, hv, hn]
        · by_cases hd : st.networkName = x.Spec.Network
          · rw [if_neg hn, if_neg (not_not.mpr hd)] at h
            injection h with h
            subst h
            simp [addressRecord, hv, hd]
          · simp [hn, hd] at h
    | other raw => simp [hv] at h

/-- A merge that ends the handler wrote a 500 response. -/
theorem mergeInstance_abort (env : Env) (pr : PodRequest) (st : LoopState) (x : IPInstance)
    (out : List Event) (h : mergeInstance env pr st x = .abort out) :
    ∃ msg, out = errorWrapper msg StatusInternalServerError := by
  unfold mergeInstance at h
  cases hp : env.ParseCIDR x.Spec.Address.IP with
  | error e =>
    simp only [hp] at h
    injection h with h
    exact ⟨_, h.symm⟩
  | ok parsed =>
    obtain ⟨containerIP, cidrNet⟩ := parsed
    simp only [hp] at h
    cases hv : x.Spec.Address.Version with
    | IPv4 =>
      simp only [hv] at h
      cases h4 : st.allocatedIPs.v4 with
      | some info =>
        simp only [h4, Option.isSome_some, if_true] at h
        injection h with h
        exact ⟨_, h.symm⟩
      | none =>
        simp only [h4, Option.isSome_none, Bool.false_eq_true, if_false] at h
        by_cases hn : st.networkName = ""
        · simp [hn] at h
        · by_cases hd : st.networkName = x.Spec.Network
          · simp [hn, hd] at h
          · simp only [hn, if_false, hd, ne_eq, not_false_eq_true, if_true] at h
            injection h with h
            exact ⟨_, h.symm⟩
    | IPv6 =>
      simp only [hv] at h
      cases h6 : st.allocatedIPs.v6 with
      | some info =>
        simp only [h6, Option.isSome_some, if_true] at h
        injection h with h
        exact ⟨_, h.symm⟩
      | none =>
        simp only [h6, Option.isSome_none, Bool.false_eq_true, if_false] at h
        by_cases hn : st.networkName = ""
        · simp [hn] at h
        · by_cases hd : st.networkName = x.Spec.Network
          · simp [hn, hd] at h
          · simp only [hn, if_false, hd, ne_eq, not_false_eq_true, if_true] at h
            injection h with h
            exact ⟨_, h.symm⟩
    | other raw =>
      simp only [hv] at h
      injection h with h
      exact ⟨_, h.symm⟩

/-- Merging never panics. -/
theorem mergeInstance_ne_crash (env : Env) (pr : PodRequest) (st : LoopState) (x : IPInstance) :
    mergeInstance env pr st x ≠ .crash := by
  unfold mergeInstance
  cases hp : env.ParseCIDR x.Spec.Address.IP with
  | error e => simp
  | ok parsed =>
    obtain ⟨containerIP, cidrNet⟩ := parsed
    cases hv : x.Spec.Address.Version with
    | IPv4 =>
      cases h4 : st.allocatedIPs.v4 <;> by_cases hn : st.networkName = "" <;>
        by_cases hd : st.networkName = x.Spec.Network <;> simp [h4, hn, hd]
    | IPv6 =>
      cases h6 : st.allocatedIPs.v6 <;> by_cases hn : st.networkName = "" <;>
        by_cases hd : st.networkName = x.Spec.Network <;> simp [h6, hn, hd]
    | other raw => simp

/-- The check of lines 136-138 passes only for an instance with the recorded
MAC and, when a network id is recorded, with that network id. -/
theorem mismatch_false (netID : Option Int) (macAddr : String) (a : Address)
    (h : mismatch netID macAddr a = some false) :
    macAddr = a.MAC ∧ (netID = none ∨ netID = a.NetID) := by
  unfold mismatch at h
  cases hn : netID with
  | none => simp [hn] at h; exact ⟨h, Or.inl rfl⟩
  | some x =>
    cases ha : a.NetID with
    | none => simp [hn, ha] at h
    | some y =>
      simp [hn, ha] at h
      exact ⟨h.2, Or.inr (by rw [h.1])⟩

/-- The check of lines 136-138 panics exactly when a network id is recorded and
the instance has none. -/
theorem mismatch_none (netID : Option Int) (macAddr : String) (a : Address) :
    mismatch netID macAddr a = none ↔ netID ≠ none ∧ a.NetID = none := by
  unfold mismatch
  cases hn : netID <;> cases ha : a.NetID <;> simp

/-- An item of another pod leaves the locals unchanged. -/
theorem rangeBody_other (env : Env) (pr : PodRequest) (st : LoopState) (x : IPInstance)
    (h : matchesPod pr x = false) : rangeBody env pr st x = .next st := by
  simp [rangeBody, h]

/-- What a completed iteration for a matching item leaves in the locals. -/
theorem rangeBody_next (env : Env) (pr : PodRequest) (st st' : LoopState) (x : IPInstance)
    (hm : matchesPod pr x = true) (h : rangeBody env pr st x = .next st') :
    st'.returnIPAddress = st.returnIPAddress ++ [addressRecord x] ∧
    st'.affectedIPInstances = st.affectedIPInstances ++ [x] ∧
    st'.networkName = x.Spec.Network ∧
    (st.networkName = "" ∨ st.networkName = x.Spec.Network) ∧
    ((x.Spec.Address.Version = .IPv4 ∧ st.allocatedIPs.v4 = none ∧
        st'.allocatedIPs.v4.isSome = true ∧ st'.allocatedIPs.v6 = st.allocatedIPs.v6) ∨
     (x.Spec.Address.Version = .IPv6 ∧ st.allocatedIPs.v6 = none ∧
        st'.allocatedIPs.v6.isSome = true ∧ st'.allocatedIPs.v4 = st.allocatedIPs.v4)) ∧
    ((st.netID = none ∧ st.macAddr = "" ∧
        st'.netID = x.Spec.Address.NetID ∧ st'.macAddr = x.Spec.Address.MAC) ∨
     (¬ (st.netID = none ∧ st.macAddr = "") ∧ st'.netID = st.netID ∧
        st'.macAddr = st.macAddr ∧ st.macAddr = x.Spec.Address.MAC ∧
        (st.netID = none ∨ st.netID = x.Spec.Address.NetID))) := by
  unfold rangeBody at h
  rw [if_pos hm] at h
  by_cases hfirst : st.netID = none ∧ st.macAddr = ""
  · rw [if_pos hfirst] at h
    obtain ⟨h1, h2, h3, h4, h5, h6, h7⟩ := mergeInstance_next env pr _ st' x h
    exact ⟨h3, h4, h5, h6, h7, Or.inl ⟨hfirst.1, hfirst.2, h2, h1⟩⟩
  · rw [if_neg hfirst] at h
    cases hmis : mismatch st.netID st.macAddr x.Spec.Address with
    | none => simp [hmis] at h
    | some b =>
      cases b with
      | true => simp [hmis] at h
      | false =>
        simp only [hmis] at h
        obtain ⟨h1, h2, h3, h4, h5, h6, h7⟩ := mergeInstance_next env pr _ st' x h
        obtain ⟨hmac, hnet⟩ := mismatch_false _ _ _ hmis
        exact ⟨h3, h4, h5, h6, h7, Or.inr ⟨hfirst, h2, h1, hmac, hnet⟩⟩

/-- An iteration that ends the handler wrote a 500 response. -/
theorem rangeBody_abort (env : Env) (pr : PodRequest) (st : LoopState) (x : IPInstance)
    (out : List Event) (h : rangeBody env pr st x = .abort out) :
    ∃ msg, out = errorWrapper msg StatusInternalServerError := by
  unfold rangeBody at h
  by_cases hm : matchesPod pr x = true
  · rw [if_pos hm] at h
    by_cases hfirst : st.netID = none ∧ st.macAddr = ""
    · rw [if_pos hfirst] at h
      exact mergeInstance_abort env pr _ x out h
    · rw [if_neg hfirst] at h
      cases hmis : mismatch st.netID st.macAddr x.Spec.Address with
      | none => simp [hmis] at h
      | some b =>
        cases b with
        | true =>
          simp only [hmis] at h
          injection h with h
          exact ⟨_, h.symm⟩
        | false =>
          simp only [hmis] at h
          exact mergeInstance_abort env pr _ x out h
  · rw [if_neg hm] at h
    simp at h

/-- An iteration panics only at the nil dereference of line 137: the item
belongs to the pod, a network id is recorded, and the item has none. -/
theorem rangeBody_crash (env : Env) (pr : PodRequest) (st : LoopState) (x : IPInstance) :
    rangeBody env pr st x = .crash ↔
      matchesPod pr x = true ∧ st.netID ≠ none ∧ x.Spec.Address.NetID = none := by
  unfold rangeBody
  by_cases hm : matchesPod pr x = true
  · rw [if_pos hm]
    by_cases hfirst : st.netID = none ∧ st.macAddr = ""
    · rw [if_pos hfirst]
      simp [mergeInstance_ne_crash, hfirst.1]
    · rw [if_neg hfirst]
      cases hmis : mismatch st.netID st.macAddr x.Spec.Address with
      | none =>
        have := (mismatch_none _ _ _).mp hmis
        simp [hm, this.1, this.2]
      | some b =>
        have hne : ¬ (st.netID ≠ none ∧ x.Spec.Address.NetID = none) := by
          intro hc
          rw [(mismatch_none _ _ _).mpr hc] at hmis
          simp at hmis
        cases b with
        | true => simp only [hm, true_and]; simp [hne]
        | false => simp only [hm, true_and]; simp [hne, mergeInstance_ne_crash]
  · rw [if_neg hm]
    simp [hm]

/-- The range loop only looks at the items of the pod. -/
theorem rangeLoop_matching (env : Env) (pr : PodRequest) :
    ∀ (items : List IPInstance) (st : LoopState),
      rangeLoop env pr items st = rangeLoop env pr (matching pr items) st := by
  intro items
  induction items with
  | nil => intro st; rfl
  | cons x rest ih =>
    intro st
    by_cases hm : matchesPod pr x = true
    · have hf : matching pr (x :: rest) = x :: matching pr rest := by
        simp [matching, List.filter_cons, hm]
      rw [hf]
      unfold rangeLoop
      cases hb : rangeBody env pr st x with
      | next st1 => simp only; exact ih st1
      | abort out => rfl
      | crash => rfl
    · have hm' : matchesPod pr x = false := by simpa using hm
      have hf : matching pr (x :: rest) = matching pr rest := by
        simp [matching, List.filter_cons, hm']
      rw [hf]
      conv => lhs; unfold rangeLoop
      rw [rangeBody_other env pr st x hm']
      exact ih st

/-- A range loop that ends the handler wrote a 500 response. -/
theorem rangeLoop_abort (env : Env) (pr : PodRequest) :
    ∀ (items : List IPInstance) (st : LoopState) (out : List Event),
      rangeLoop env pr items st = .abort out →
      ∃ msg, out = errorWrapper msg StatusInternalServerError := by
  intro items
  induction items with
  | nil => intro st out h; simp [rangeLoop] at h
  | cons x rest ih =>
    intro st out h
    unfold rangeLoop at h
    cases hb : rangeBody env pr st x with
    | next st1 => rw [hb] at h; exact ih st1 out h
    | abort out1 =>
      rw [hb] at h
      injection h with h
      subst h
      exact rangeBody_abort env pr st x out1 hb
    | crash => rw [hb] at h; simp at h

/-- A completed range loop appended one address record and one entry of
`affectedIPInstances` per item of the pod, in list order. -/
theorem rangeLoop_next (env : Env) (pr : PodRequest) :
    ∀ (items : List IPInstance) (st st' : LoopState),
      rangeLoop env pr items st = .next st' →
      st'.returnIPAddress = st.returnIPAddress ++ (matching pr items).map addressRecord ∧
      st'.affectedIPInstances = st.affectedIPInstances ++ matching pr items := by
  intro items
  induction items with
  | nil =>
    intro st st' h
    simp only [rangeLoop] at h
    injection h with h
    subst h
    simp [matching]
  | cons x rest ih =>
    intro st st' h
    unfold rangeLoop at h
    cases hb : rangeBody env pr st x with
    | next st1 =>
      rw [hb] at h
      obtain ⟨hr, ha⟩ := ih st1 st' h
      by_cases hm : matchesPod pr x = true
      · obtain ⟨h1, h2, _⟩ := rangeBody_next env pr st st1 x hm hb
        have hf : matching pr (x :: rest) = x :: matching pr rest := by
          simp [matching, List.filter_cons, hm]
        rw [hr, ha, h1, h2, hf]
        simp
      · have hm' : matchesPod pr x = false := by simpa using hm
        rw [rangeBody_other env pr st x hm'] at hb
        injection hb with hb
        subst hb
        have hf : matching pr (x :: rest) = matching pr rest := by
          simp [matching, List.filter_cons, hm']
        rw [hr, ha, hf]
        exact ⟨rfl, rfl⟩
    | abort out => rw [hb] at h; simp at h
    | crash => rw [hb] at h; simp at h

/-! ## Status updates and the end of `handleAdd` -/

theorem updateEvents_responses (containerID : String) (l : List IPInstance) :
    (l.map (updateEvent containerID)).filterMap Event.response? = [] := by
  induction l with
  | nil => rfl
  | cons x rest ih => simp [updateEvent, Event.response?, List.filterMap_cons]

theorem updateEvents_nicCalls (containerID : String) (l : List IPInstance) :
    (l.map (updateEvent containerID)).filterMap Event.nicCall? = [] := by
  induction l with
  | nil => rfl
  | cons x rest ih => simp [updateEvent, Event.nicCall?, List.filterMap_cons]

theorem updateEvents_statusUpdates (containerID : String) (l : List IPInstance) :
    (l.map (updateEvent containerID)).filterMap Event.statusUpdate? =
      l.map (withSandbox containerID) := by
  induction l with
  | nil => rfl
  | cons x rest ih =>
    simp only [List.map_cons, List.filterMap_cons, updateEvent, Event.statusUpdate?]
    simp only [updateEvent] at ih
    rw [ih]

theorem updateStatus_cons_some (env : Env) (pr : PodRequest) (x : IPInstance)
    (rest : List IPInstance) (k : Nat) (e : String)
    (hu : env.StatusUpdate k (withSandbox pr.ContainerID x) = some e) :
    updateStatus env pr (x :: rest) k =
      ([updateEvent pr.ContainerID x],
        some (errorWrapper ("failed to update IPInstance crd for " ++
          (withSandbox pr.ContainerID x).Name ++ ", " ++ e) StatusInternalServerError)) := by
  simp [updateStatus, hu, updateEvent]

theorem updateStatus_cons_none (env : Env) (pr : PodRequest) (x : IPInstance)
    (rest : List IPInstance) (k : Nat)
    (hu : env.StatusUpdate k (withSandbox pr.ContainerID x) = none) :
    updateStatus env pr (x :: rest) k =
      (updateEvent pr.ContainerID x :: (updateStatus env pr rest (k + 1)).1,
        (updateStatus env pr rest (k + 1)).2) := by
  simp [updateStatus, hu, updateEvent]

/-- The update loop issues the updates of a leading part of the list, in order:
of the whole list when no update fails, and up to the first failing update
otherwise, which is answered by a 500 response. -/
theorem updateStatus_shape (env : Env) (pr : PodRequest) :
    ∀ (l : List IPInstance) (k : Nat), ∃ m, m ≤ l.length ∧
      (updateStatus env pr l k).1 = (l.take m).map (updateEvent pr.ContainerID) ∧
      ((updateStatus env pr l k).2 = none → m = l.length) ∧
      (∀ out, (updateStatus env pr l k).2 = some out →
        ∃ msg, out = errorWrapper msg StatusInternalServerError) := by
  intro l
  induction l with
  | nil => intro k; exact ⟨0, le_refl _, by simp [updateStatus], by simp, by simp [updateStatus]⟩
  | cons x rest ih =>
    intro k
    cases hu : env.StatusUpdate k (withSandbox pr.ContainerID x) with
    | some e =>
      rw [updateStatus_cons_some env pr x rest k e hu]
      refine ⟨1, by simp, by simp, by simp, ?_⟩
      intro out hout
      simp only [Option.some.injEq] at hout
      exact ⟨_, hout.symm⟩
    | none =>
      rw [updateStatus_cons_none env pr x rest k hu]
      obtain ⟨m, hm, htrace, hnone, hsome⟩ := ih (k + 1)
      refine ⟨m + 1, by simp; omega, ?_, ?_, ?_⟩
      · simp only [List.take_succ_cons, List.map_cons, htrace]
      · intro h
        simp only at h
        simp [hnone h]
      · intro out hout
        exact hsome out hout

theorem updateStatus_responses (env : Env) (pr : PodRequest) (l : List IPInstance) (k : Nat) :
    (updateStatus env pr l k).1.filterMap Event.response? = [] := by
  obtain ⟨m, _, htrace, _, _⟩ := updateStatus_shape env pr l k
  rw [htrace]
  exact updateEvents_responses _ _

theorem updateStatus_nicCalls (env : Env) (pr : PodRequest) (l : List IPInstance) (k : Nat) :
    (updateStatus env pr l k).1.filterMap Event.nicCall? = [] := by
  obtain ⟨m, _, htrace, _, _⟩ := updateStatus_shape env pr l k
  rw [htrace]
  exact updateEvents_nicCalls _ _

/-- With every update succeeding, the update loop issues one update per object
of the list, in order. -/
theorem updateStatus_ok (env : Env) (pr : PodRequest)
    (hupd : ∀ k obj, env.StatusUpdate k obj = none) :
    ∀ (l : List IPInstance) (k : Nat),
      updateStatus env pr l k = (l.map (updateEvent pr.ContainerID), none) := by
  intro l
  induction l with
  | nil => intro k; rfl
  | cons x rest ih =>
    intro k
    rw [updateStatus_cons_none env pr x rest k (hupd _ _), ih (k + 1)]
    rfl

/-- A 200 response of the part of `handleAdd` after the range loop carries the
address records collected by the loop and the interface name that `configureNic`
returned; it is the only response, there was exactly one `configureNic` call,
and one status update was issued per pointer of `affectedIPInstances`. -/
theorem finishAdd_ok (env : Env) (pr : PodRequest) (items : List IPInstance) (st : LoopState)
    (status : Nat) (body : PodResponse)
    (hmem : (status, body) ∈ (finishAdd env pr items st).responses) (hok : status = 200) :
    body.IPAddress = st.returnIPAddress ∧ body.Err = "" ∧
    (finishAdd env pr items st).responses = [(200, body)] ∧
    (finishAdd env pr items st).statusUpdates =
      (pointees env items st).map (withSandbox pr.ContainerID) ∧
    ∃ args, (finishAdd env pr items st).nicCalls = [args] ∧
      env.configureNic args = .ok body.HostInterface := by
  subst hok
  unfold finishAdd at hmem ⊢
  by_cases hvalid : st.macAddr = "" ∨ st.netID = none
  · rw [if_pos hvalid] at hmem
    simp [Run.responses, errorWrapper, Event.response?, StatusInternalServerError] at hmem
  · rw [if_neg hvalid] at hmem ⊢
    cases hnet : env.GetNetwork st.networkName with
    | error e =>
      simp [hnet, Run.responses, errorWrapper, Event.response?,
        StatusInternalServerError] at hmem
    | ok network =>
      simp only [hnet] at hmem ⊢
      cases hnic : env.configureNic
          { podName := pr.PodName, podNamespace := pr.PodNamespace, netNs := pr.NetNs,
            containerID := pr.ContainerID, macAddr := st.macAddr, netID := st.netID,
            allocatedIPs := st.allocatedIPs, networkMode := network.Mode } with
      | error e =>
        simp [hnic, Run.responses, errorWrapper, Event.response?,
          StatusInternalServerError] at hmem
      | ok hostInterface =>
        simp only [hnic] at hmem ⊢
        obtain ⟨m, hm, htrace, hnone, hsome⟩ := updateStatus_shape env pr (pointees env items st) 0
        cases hupd : (updateStatus env pr (pointees env items st) 0).2 with
        | some out =>
          obtain ⟨msg, hmsg⟩ := hsome out hupd
          simp [hupd, hmsg, Run.responses, errorWrapper, Event.response?,
            StatusInternalServerError, List.filterMap_append, updateStatus_responses] at hmem
        | none =>
          have hall : m = (pointees env items st).length := hnone hupd
          simp only [hupd, htrace, hall, List.take_length] at hmem ⊢
          simp only [Run.responses, List.filterMap_append, List.filterMap_cons,
            Event.response?, updateEvents_responses, List.filterMap_nil, List.nil_append,
            List.append_nil, List.mem_singleton, Prod.mk.injEq, List.cons_append,
            StatusOK] at hmem
          obtain ⟨-, hbody⟩ := hmem
          subst hbody
          refine ⟨rfl, rfl, ?_, ?_, _, ?_, hnic⟩
          · simp only [Run.responses, List.filterMap_append, List.filterMap_cons,
              List.filterMap_nil, Event.response?, updateEvents_responses, StatusOK,
              List.nil_append, List.append_nil]
          · simp only [Run.statusUpdates, List.filterMap_append, List.filterMap_cons,
              List.filterMap_nil, Event.statusUpdate?, updateEvents_statusUpdates,
              List.nil_append, List.append_nil]
          · simp only [Run.nicCalls, List.filterMap_append, List.filterMap_cons,
              List.filterMap_nil, Event.nicCall?, updateEvents_nicCalls,
              List.nil_append, List.append_nil, List.singleton_append]

/-! ## Successful runs of `handleAdd` -/

/-- A 200 response of `handleAdd` comes from a run in which the request parsed,
the list call succeeded and the range loop completed; what the run wrote,
configured and updated is what the part after the range loop did. -/
theorem handleAdd_ok (env : Env) (req : Request) (body : PodResponse)
    (hmem : (200, body) ∈ (handleAdd env req).responses) :
    ∃ pr items st, req.ReadEntity = .ok pr ∧
      env.ListIPInstances env.NodeName pr.PodName = .ok items ∧
      rangeLoop env pr items LoopState.init = .next st ∧
      (handleAdd env req).responses = (finishAdd env pr items st).responses ∧
      (handleAdd env req).statusUpdates = (finishAdd env pr items st).statusUpdates ∧
      (handleAdd env req).nicCalls = (finishAdd env pr items st).nicCalls := by
  unfold handleAdd at hmem ⊢
  cases hparse : req.ReadEntity with
  | error e =>
    simp [hparse, Run.responses, errorWrapper, Event.response?, StatusBadRequest] at hmem
  | ok pr =>
    simp only [hparse] at hmem ⊢
    obtain ⟨k, msg, _, hshape⟩ := waitCoupled_shape env pr retries retries 0 backOffBase
    cases hwait : (waitCoupled env pr retries retries 0 backOffBase).2 with
    | false =>
      rw [hwait] at hshape
      simp [hwait, hshape, Run.responses, errorWrapper, Event.response?, StatusBadRequest,
        List.filterMap_append, pollTrace_responses] at hmem
    | true =>
      rw [hwait] at hshape
      simp only [hwait, if_true, hshape, Bool.false_eq_true, if_false, List.append_nil]
        at hmem ⊢
      cases hlist : env.ListIPInstances env.NodeName pr.PodName with
      | error e =>
        simp [hlist, Run.responses, errorWrapper, Event.response?, StatusBadRequest,
          List.filterMap_append, pollTrace_responses] at hmem
      | ok items =>
        simp only [hlist] at hmem ⊢
        unfold validateAndConfigure at hmem ⊢
        cases hloop : rangeLoop env pr items LoopState.init with
        | crash =>
          simp [hloop, Run.after, Run.responses, Event.response?,
            List.filterMap_append, pollTrace_responses] at hmem
        | abort out =>
          obtain ⟨msg1, hout⟩ := rangeLoop_abort env pr items _ out hloop
          simp [hloop, hout, Run.after, Run.responses, errorWrapper, Event.response?,
            StatusInternalServerError, List.filterMap_append, pollTrace_responses] at hmem
        | next st =>
          refine ⟨pr, items, st, rfl, hlist, hloop, ?_, ?_, ?_⟩
          · simp only [Run.after, Run.responses, List.filterMap_append, pollTrace_responses,
              List.filterMap_cons, List.filterMap_nil, Event.response?, List.nil_append]
          · simp only [Run.after, Run.statusUpdates, List.filterMap_append,
              pollTrace_statusUpdates, List.filterMap_cons, List.filterMap_nil,
              Event.statusUpdate?, List.nil_append]
          · simp only [Run.after, Run.nicCalls, List.filterMap_append, pollTrace_nicCalls,
              List.filterMap_cons, List.filterMap_nil, Event.nicCall?, List.nil_append]

/-- C10. In every run of `handleAdd` that answers 200, the address records of
the response are, in list order, exactly one record per listed IPInstance whose
status pod name and namespace are those of the request, each with the IP, MAC
and gateway strings stored in the instance and its IP version as protocol.
In particular, when the only such instance is IPv4 `10.0.0.5/24` with gateway
`10.0.0.1` and MAC `aa:bb:cc:dd:ee:ff`, the response carries the one record
`10.0.0.5/24, aa:bb:cc:dd:ee:ff, 10.0.0.1, IPv4`. -/
theorem handleAdd_ok_records (env : Env) (req : Request) (body : PodResponse)
    (hmem : (200, body) ∈ (handleAdd env req).responses) :
    ∃ pr items, req.ReadEntity = .ok pr ∧
      env.ListIPInstances env.NodeName pr.PodName = .ok items ∧
      body.IPAddress = (matching pr items).map addressRecord ∧
      (∀ x, matching pr items = [x] →
        x.Spec.Address.Version = .IPv4 → x.Spec.Address.IP = "10.0.0.5/24" →
        x.Spec.Address.Gateway = "10.0.0.1" → x.Spec.Address.MAC = "aa:bb:cc:dd:ee:ff" →
        body.IPAddress = [{ IP := "10.0.0.5/24", Mac := "aa:bb:cc:dd:ee:ff",
                            Gateway := "10.0.0.1", Protocol := .IPv4 }]) := by
  obtain ⟨pr, items, st, hparse, hlist, hloop, hresp, -, -⟩ := handleAdd_ok env req body hmem
  rw [hresp] at hmem
  obtain ⟨hrec, -⟩ := finishAdd_ok env pr items st 200 body hmem rfl
  obtain ⟨hret, -⟩ := rangeLoop_next env pr items _ st hloop
  have hbody : body.IPAddress = (matching pr items).map addressRecord := by
    rw [hrec, hret]; rfl
  refine ⟨pr, items, hparse, hlist, hbody, ?_⟩
  intro x hx hv hip hgw hmac
  rw [hbody, hx]
  simp [addressRecord, hv, hip, hgw, hmac]

/-- Witness of C10: the scenario of the design, pod `p1/ns1` with its single
IPv4 instance. -/
theorem handleAdd_ok_records_witness :
    ∃ pr items, scenarioRequest.ReadEntity = .ok pr ∧
      (scenarioEnv [scenarioV4] false).ListIPInstances
        (scenarioEnv [scenarioV4] false).NodeName pr.PodName = .ok items ∧
      scenarioResponse.IPAddress = (matching pr items).map addressRecord ∧
      (∀ x, matching pr items = [x] →
        x.Spec.Address.Version = .IPv4 → x.Spec.Address.IP = "10.0.0.5/24" →
        x.Spec.Address.Gateway = "10.0.0.1" → x.Spec.Address.MAC = "aa:bb:cc:dd:ee:ff" →
        scenarioResponse.IPAddress =
          [{ IP := "10.0.0.5/24", Mac := "aa:bb:cc:dd:ee:ff", Gateway := "10.0.0.1",
             Protocol := .IPv4 }]) :=
  handleAdd_ok_records (scenarioEnv [scenarioV4] false) scenarioRequest scenarioResponse
    (by decide)

/-! ## Dual-stack pods -/

/-- The check of lines 136-138 passes for an instance with the recorded MAC and
the recorded network id. -/
theorem mismatch_same (netID : Option Int) (macAddr : String) (a : Address)
    (hnet : netID = a.NetID) (hsome : netID ≠ none) (hmac : macAddr = a.MAC) :
    mismatch netID macAddr a = some false := by
  unfold mismatch
  cases hn : netID with
  | none => exact absurd hn hsome
  | some v => rw [← hnet, hn]; simp [hmac]

/-- A merge completes when the stored IP parses, the IP version of the instance
is IPv4 or IPv6 and not yet allocated, and no other network name is recorded. -/
theorem mergeInstance_completes (env : Env) (pr : PodRequest) (st : LoopState) (x : IPInstance)
    (hcidr : ∃ parsed, env.ParseCIDR x.Spec.Address.IP = .ok parsed)
    (hver : (x.Spec.Address.Version = .IPv4 ∧ st.allocatedIPs.v4 = none) ∨
      (x.Spec.Address.Version = .IPv6 ∧ st.allocatedIPs.v6 = none))
    (hname : st.networkName = "" ∨ st.networkName = x.Spec.Network) :
    ∃ st', mergeInstance env pr st x = .next st' := by
  obtain ⟨⟨containerIP, cidrNet⟩, hp⟩ := hcidr
  unfold mergeInstance
  simp only [hp]
  rcases hver with ⟨hv, hfree⟩ | ⟨hv, hfree⟩
  · simp only [hv, hfree, Option.isSome_none, Bool.false_eq_true, if_false]
    by_cases hn : st.networkName = ""
    · rw [if_pos hn]; exact ⟨_, rfl⟩
    · have hd : st.networkName = x.Spec.Network := hname.resolve_left hn
      rw [if_neg hn, if_neg (not_not.mpr hd)]; exact ⟨_, rfl⟩
  · simp only [hv, hfree, Option.isSome_none, Bool.false_eq_true, if_false]
    by_cases hn : st.networkName = ""
    · rw [if_pos hn]; exact ⟨_, rfl⟩
    · have hd : st.networkName = x.Spec.Network := hname.resolve_left hn
      rw [if_neg hn, if_neg (not_not.mpr hd)]; exact ⟨_, rfl⟩

/-- The part of `handleAdd` after the range loop, when the recorded MAC and
network id are present and the network read, the interface configuration and
every status update succeed. -/
theorem finishAdd_completes (env : Env) (pr : PodRequest) (items : List IPInstance)
    (st : LoopState) (network : Network) (name : String)
    (hmac : st.macAddr ≠ "") (hnet : st.netID ≠ none)
    (hget : env.GetNetwork st.networkName = .ok network)
    (hnic : env.configureNic
      { podName := pr.PodName, podNamespace := pr.PodNamespace, netNs := pr.NetNs,
        containerID := pr.ContainerID, macAddr := st.macAddr, netID := st.netID,
        allocatedIPs := st.allocatedIPs, networkMode := network.Mode } = .ok name)
    (hupd : ∀ k obj, env.StatusUpdate k obj = none) :
    finishAdd env pr items st =
      ⟨[Event.getNetwork st.networkName, Event.configureNic
          { podName := pr.PodName, podNamespace := pr.PodNamespace, netNs := pr.NetNs,
            containerID := pr.ContainerID, macAddr := st.macAddr, netID := st.netID,
            allocatedIPs := st.allocatedIPs, networkMode := network.Mode }] ++
        (pointees env items st).map (updateEvent pr.ContainerID) ++
        [Event.writeResponse StatusOK
          { IPAddress := st.returnIPAddress, HostInterface := name, Err := "" }],
        .returned⟩ := by
  unfold finishAdd
  rw [if_neg (by simp [hmac, hnet])]
  simp only [hget, hnic, updateStatus_ok env pr hupd]

/-- The range loop over a list whose items of the pod are an IPv4 and an IPv6
object with the same non-empty MAC, the same present network id, the same
network name and stored IPs that parse: it completes, with both records and
both objects collected. -/
theorem rangeLoop_dual_stack (env : Env) (pr : PodRequest) (items : List IPInstance)
    (x y : IPInstance)
    (hmatch : matching pr items = [x, y])
    (hver : (x.Spec.Address.Version = .IPv4 ∧ y.Spec.Address.Version = .IPv6) ∨
      (x.Spec.Address.Version = .IPv6 ∧ y.Spec.Address.Version = .IPv4))
    (hmac : x.Spec.Address.MAC = y.Spec.Address.MAC)
    (hnet : x.Spec.Address.NetID = y.Spec.Address.NetID)
    (hmacPresent : x.Spec.Address.MAC ≠ "")
    (hnetPresent : x.Spec.Address.NetID ≠ none)
    (hnetwork : x.Spec.Network = y.Spec.Network)
    (hcidrx : ∃ parsed, env.ParseCIDR x.Spec.Address.IP = .ok parsed)
    (hcidry : ∃ parsed, env.ParseCIDR y.Spec.Address.IP = .ok parsed) :
    ∃ st, rangeLoop env pr items LoopState.init = .next st ∧
      st.macAddr = x.Spec.Address.MAC ∧ st.netID = x.Spec.Address.NetID ∧
      st.networkName = x.Spec.Network ∧
      st.returnIPAddress = [addressRecord x, addressRecord y] ∧
      st.affectedIPInstances = [x, y] := by
  have hx : matchesPod pr x = true := by
    have : x ∈ matching pr items := by rw [hmatch]; simp
    exact (List.mem_filter.mp this).2
  have hy : matchesPod pr y = true := by
    have : y ∈ matching pr items := by rw [hmatch]; simp
    exact (List.mem_filter.mp this).2
  -- first iteration
  have hbx : ∃ st1, rangeBody env pr LoopState.init x = .next st1 := by
    unfold rangeBody
    rw [if_pos hx, if_pos ⟨rfl, rfl⟩]
    apply mergeInstance_completes env pr _ x hcidrx
    · rcases hver with ⟨hv, _⟩ | ⟨hv, _⟩
      · exact Or.inl ⟨hv, rfl⟩
      · exact Or.inr ⟨hv, rfl⟩
    · exact Or.inl rfl
  obtain ⟨st1, hst1⟩ := hbx
  obtain ⟨hret1, haff1, hname1, -, halloc1, hid1⟩ :=
    rangeBody_next env pr LoopState.init st1 x hx hst1
  have hid1' : st1.netID = x.Spec.Address.NetID ∧ st1.macAddr = x.Spec.Address.MAC := by
    rcases hid1 with ⟨-, -, h1, h2⟩ | ⟨hnot, -⟩
    · exact ⟨h1, h2⟩
    · exact absurd ⟨rfl, rfl⟩ hnot
  -- second iteration
  have hby : ∃ st2, rangeBody env pr st1 y = .next st2 := by
    unfold rangeBody
    have hnotfirst : ¬ (st1.netID = none ∧ st1.macAddr = "") := by
      rintro ⟨-, h⟩
      exact hmacPresent (by rw [← hid1'.2, h])
    rw [if_pos hy, if_neg hnotfirst]
    rw [mismatch_same st1.netID st1.macAddr y.Spec.Address (by rw [hid1'.1, hnet])
      (by rw [hid1'.1]; exact hnetPresent) (by rw [hid1'.2, hmac])]
    apply mergeInstance_completes env pr _ y hcidry
    · rcases hver with ⟨hvx, hvy⟩ | ⟨hvx, hvy⟩
      · rcases halloc1 with ⟨-, -, -, h6⟩ | ⟨hv, -⟩
        · exact Or.inr ⟨hvy, by rw [h6]; rfl⟩
        · rw [hvx] at hv; cases hv
      · rcases halloc1 with ⟨hv, -⟩ | ⟨-, -, -, h4⟩
        · rw [hvx] at hv; cases hv
        · exact Or.inl ⟨hvy, by rw [h4]; rfl⟩
    · exact Or.inr (by rw [hname1, hnetwork])
  obtain ⟨st2, hst2⟩ := hby
  obtain ⟨hret2, haff2, hname2, -, -, hid2⟩ := rangeBody_next env pr st1 st2 y hy hst2
  have hid2' : st2.netID = st1.netID ∧ st2.macAddr = st1.macAddr := by
    rcases hid2 with ⟨-, h, -, -⟩ | ⟨-, h1, h2, -⟩
    · exact absurd (by rw [← hid1'.2, h]) hmacPresent
    · exact ⟨h1, h2⟩
  refine ⟨st2, ?_, ?_, ?_, ?_, ?_, ?_⟩
  · rw [rangeLoop_matching, hmatch]
    simp [rangeLoop, hst1, hst2]
  · rw [hid2'.2, hid1'.2]
  · rw [hid2'.1, hid1'.1]
  · rw [hname2, hnetwork]
  · rw [hret2, hret1]; rfl
  · rw [haff2, haff1]; rfl

/-- C5, as amended. When the request parses, the pod is read with the
annotation within the 11 attempts (every earlier read succeeding), the list call
succeeds, and the listed instances of the pod are exactly two, one IPv4 and one
IPv6, that share a non-empty MAC, a present network id and their network
name, and whose stored IPs parse as CIDR, and the network get, `configureNic`
(returning a non-empty name) and every status update succeed, then `handleAdd`
returns after writing one response, with status 200, exactly the two address
records of the two instances, and the name returned by the one `configureNic`
call as host interface name. -/
theorem handleAdd_dual_stack (env : Env) (req : Request) (pr : PodRequest)
    (items : List IPInstance) (x y : IPInstance)
    (hparse : req.ReadEntity = .ok pr)
    (hpod : ∃ k, k < retries ∧
      (∀ j, j < k → ∃ pod, env.GetPod j pr.PodName pr.PodNamespace = .ok pod ∧
        pod.Annotations.lookup env.AnnotationIP = none) ∧
      ∃ pod, env.GetPod k pr.PodName pr.PodNamespace = .ok pod ∧
        (pod.Annotations.lookup env.AnnotationIP).isSome = true)
    (hlist : env.ListIPInstances env.NodeName pr.PodName = .ok items)
    (hmatch : matching pr items = [x, y])
    (hver : (x.Spec.Address.Version = .IPv4 ∧ y.Spec.Address.Version = .IPv6) ∨
      (x.Spec.Address.Version = .IPv6 ∧ y.Spec.Address.Version = .IPv4))
    (hmac : x.Spec.Address.MAC = y.Spec.Address.MAC)
    (hnet : x.Spec.Address.NetID = y.Spec.Address.NetID)
    (hmacPresent : x.Spec.Address.MAC ≠ "")
    (hnetPresent : x.Spec.Address.NetID ≠ none)
    (hnetwork : x.Spec.Network = y.Spec.Network)
    (hcidrx : ∃ parsed, env.ParseCIDR x.Spec.Address.IP = .ok parsed)
    (hcidry : ∃ parsed, env.ParseCIDR y.Spec.Address.IP = .ok parsed)
    (hget : ∃ network, env.GetNetwork x.Spec.Network = .ok network)
    (hnic : ∀ args, ∃ name, env.configureNic args = .ok name ∧ name ≠ "")
    (hupd : ∀ k obj, env.StatusUpdate k obj = none) :
    ∃ args name, env.configureNic args = .ok name ∧ name ≠ "" ∧
      (handleAdd env req).exit = .returned ∧
      (handleAdd env req).nicCalls = [args] ∧
      (handleAdd env req).responses =
        [(200, { IPAddress := [addressRecord x, addressRecord y],
                 HostInterface := name, Err := "" })] := by
  obtain ⟨st, hloop, hm, hn, hname, hret, -⟩ :=
    rangeLoop_dual_stack env pr items x y hmatch hver hmac hnet hmacPresent hnetPresent
      hnetwork hcidrx hcidry
  obtain ⟨network, hnetget⟩ := hget
  obtain ⟨name, hname1, hnonempty⟩ := hnic
    { podName := pr.PodName, podNamespace := pr.PodNamespace, netNs := pr.NetNs,
      containerID := pr.ContainerID, macAddr := st.macAddr, netID := st.netID,
      allocatedIPs := st.allocatedIPs, networkMode := network.Mode }
  have hfin := finishAdd_completes env pr items st network name (by rw [hm]; exact hmacPresent)
    (by rw [hn]; exact hnetPresent) (by rw [hname]; exact hnetget) hname1 hupd
  obtain ⟨k, hk, hbefore, hcoupled⟩ := hpod
  have hwait := waitCoupled_coupled env pr retries k retries 0 backOffBase hk (by simp)
    (by simpa using hbefore) (by simpa using hcoupled)
  have hrun : handleAdd env req =
      Run.after (pollTrace pr (k + 1) backOffBase ++
        [Event.listIPInstances env.NodeName pr.PodName]) (finishAdd env pr items st) := by
    unfold handleAdd
    simp only [hparse, hwait, if_true, hlist]
    unfold validateAndConfigure
    rw [hloop]
  refine ⟨_, name, hname1, hnonempty, ?_, ?_, ?_⟩
  · rw [hrun, hfin]; rfl
  · rw [hrun, hfin]
    simp only [Run.after, Run.nicCalls, List.filterMap_append, pollTrace_nicCalls,
      List.filterMap_cons, List.filterMap_nil, Event.nicCall?, updateEvents_nicCalls,
      List.nil_append, List.append_nil, List.singleton_append]
  · rw [hrun, hfin]
    simp only [Run.after, Run.responses, List.filterMap_append, pollTrace_responses,
      List.filterMap_cons, List.filterMap_nil, Event.response?, updateEvents_responses,
      List.nil_append, List.append_nil, StatusOK, hret]

/-- Witness of C5 as amended: the dual-stack scenario. -/
theorem handleAdd_dual_stack_witness :
    ∃ args name, (scenarioEnv [scenarioV4, scenarioV6] true).configureNic args = .ok name ∧
      name ≠ "" ∧
      (handleAdd (scenarioEnv [scenarioV4, scenarioV6] true) scenarioRequest).exit = .returned ∧
      (handleAdd (scenarioEnv [scenarioV4, scenarioV6] true) scenarioRequest).nicCalls = [args] ∧
      (handleAdd (scenarioEnv [scenarioV4, scenarioV6] true) scenarioRequest).responses =
        [(200, { IPAddress := [addressRecord scenarioV4, addressRecord scenarioV6],
                 HostInterface := name, Err := "" })] :=
  handleAdd_dual_stack (scenarioEnv [scenarioV4, scenarioV6] true) scenarioRequest
    scenarioPodRequest [scenarioV4, scenarioV6] scenarioV4 scenarioV6 rfl
    ⟨0, by decide, fun j hj => absurd hj (Nat.not_lt_zero j), ⟨_, rfl, rfl⟩⟩ rfl (by decide)
    (Or.inl ⟨rfl, rfl⟩) rfl rfl (by decide) (by decide) rfl ⟨_, rfl⟩ ⟨_, rfl⟩ ⟨_, rfl⟩
    (fun _ => ⟨"veth0", rfl, by decide⟩) (fun _ _ => rfl)

/-- Counterexample to C5 as stated: a pod with exactly two instances, one IPv4
and one IPv6, that share MAC and network id, every collaborator succeeding, is
answered 500 when the two instances name different networks. -/
theorem handleAdd_dual_stack_two_networks :
    matching scenarioPodRequest [scenarioV4, scenarioV6OtherNetwork] =
      [scenarioV4, scenarioV6OtherNetwork] ∧
    scenarioV4.Spec.Address.Version = .IPv4 ∧
    scenarioV6OtherNetwork.Spec.Address.Version = .IPv6 ∧
    scenarioV4.Spec.Address.MAC = scenarioV6OtherNetwork.Spec.Address.MAC ∧
    scenarioV4.Spec.Address.NetID = scenarioV6OtherNetwork.Spec.Address.NetID ∧
    (handleAdd (scenarioEnv [scenarioV4, scenarioV6OtherNetwork] true) scenarioRequest).responses =
      [(500, { IPAddress := [], HostInterface := "",
               Err := "found different networks net-b/net-a for pod ns1/p1" })] ∧
    (handleAdd (scenarioEnv [scenarioV4, scenarioV6OtherNetwork] true) scenarioRequest).nicCalls =
      [] := by
  decide

/-! ## Status updates -/

/-- With one range variable per iteration, a run of `handleAdd` that answers 200
issued exactly one status update per listed instance of the pod, in list order,
each for that instance with its sandbox id set to the container id. -/
theorem handleAdd_ok_updates_fresh (env : Env) (req : Request) (body : PodResponse)
    (hfresh : env.freshLoopVar = true)
    (hmem : (200, body) ∈ (handleAdd env req).responses) :
    ∃ pr items, req.ReadEntity = .ok pr ∧
      env.ListIPInstances env.NodeName pr.PodName = .ok items ∧
      (handleAdd env req).statusUpdates =
        (matching pr items).map (withSandbox pr.ContainerID) := by
  obtain ⟨pr, items, st, hparse, hlist, hloop, hresp, hupd, -⟩ := handleAdd_ok env req body hmem
  rw [hresp] at hmem
  obtain ⟨-, -, -, hupdates, -⟩ := finishAdd_ok env pr items st 200 body hmem rfl
  obtain ⟨-, haff⟩ := rangeLoop_next env pr items _ st hloop
  refine ⟨pr, items, hparse, hlist, ?_⟩
  rw [hupd, hupdates]
  simp [pointees, hfresh, haff, LoopState.init]

/-- With one range variable for the whole loop, a run of `handleAdd` that
answers 200 issued as many status updates as there are listed instances of the
pod, every one of them for the last item of the list. -/
theorem handleAdd_ok_updates_shared (env : Env) (req : Request) (body : PodResponse)
    (hshared : env.freshLoopVar = false)
    (hmem : (200, body) ∈ (handleAdd env req).responses) :
    ∃ pr items, req.ReadEntity = .ok pr ∧
      env.ListIPInstances env.NodeName pr.PodName = .ok items ∧
      ∀ last, items.getLast? = some last →
        (handleAdd env req).statusUpdates =
          List.replicate (matching pr items).length (withSandbox pr.ContainerID last) := by
  obtain ⟨pr, items, st, hparse, hlist, hloop, hresp, hupd, -⟩ := handleAdd_ok env req body hmem
  rw [hresp] at hmem
  obtain ⟨-, -, -, hupdates, -⟩ := finishAdd_ok env pr items st 200 body hmem rfl
  obtain ⟨-, haff⟩ := rangeLoop_next env pr items _ st hloop
  refine ⟨pr, items, hparse, hlist, ?_⟩
  intro last hlast
  rw [hupd, hupdates]
  simp [pointees, hshared, hlast, haff, LoopState.init, List.map_const']

/-- C4, at two failing inputs, with one range variable for the whole loop.
For the dual-stack pod `p1/ns1` the run answers 200 after two status updates,
both for the IPv6 instance, and none for the IPv4 instance. For the pod `p1/ns1`
with its single IPv4 instance listed before an instance of the pod `p1/ns2`, the
run answers 200 after one status update, which writes the container id into
the instance of the other pod. -/
theorem handleAdd_updates_last_item :
    ((handleAdd (scenarioEnv [scenarioV4, scenarioV6] false) scenarioRequest).responses.map
        Prod.fst = [200] ∧
      (handleAdd (scenarioEnv [scenarioV4, scenarioV6] false) scenarioRequest).statusUpdates =
        [withSandbox "abc" scenarioV6, withSandbox "abc" scenarioV6] ∧
      withSandbox "abc" scenarioV4 ∉
        (handleAdd (scenarioEnv [scenarioV4, scenarioV6] false) scenarioRequest).statusUpdates) ∧
    ((handleAdd (scenarioEnv [scenarioV4, otherPodInstance] false) scenarioRequest).responses.map
        Prod.fst = [200] ∧
      matching scenarioPodRequest [scenarioV4, otherPodInstance] = [scenarioV4] ∧
      (handleAdd (scenarioEnv [scenarioV4, otherPodInstance] false) scenarioRequest).statusUpdates =
        [withSandbox "abc" otherPodInstance]) := by
  decide

/-! ## The nil dereference of line 137 and the empty-MAC sentinel of line 133 -/

/-- C1, at a failing input. The pod `p1/ns1` has two IPv4 instances with the same
MAC, the first with network id 7 and the second without a network id. The run
ends in the nil dereference of line 137, after the pod read and the list call:
no response is written (and `configureNic` is not called). -/
theorem handleAdd_duplicate_version_panics :
    ∀ fresh : Bool,
      matching scenarioPodRequest [scenarioV4, scenarioV4NoNetID] =
        [scenarioV4, scenarioV4NoNetID] ∧
      scenarioV4.Spec.Address.Version = scenarioV4NoNetID.Spec.Address.Version ∧
      handleAdd (scenarioEnv [scenarioV4, scenarioV4NoNetID] fresh) scenarioRequest =
        ⟨[Event.sleep 5000, Event.getPod "p1" "ns1", Event.listIPInstances "node1" "p1"],
          .panicked⟩ ∧
      (handleAdd (scenarioEnv [scenarioV4, scenarioV4NoNetID] fresh) scenarioRequest).responses =
        [] := by
  decide

/-- C2, at two failing inputs. With the instances `aa:bb:cc:dd:ee:ff`, network
id 7, and `11:22:33:44:55:66`, no network id, the run ends in the nil
dereference of line 137 and writes no response. With the instances empty MAC, no
network id, and `aa:bb:cc:dd:ee:ff`, network id 7, the second instance replaces
the first as the recorded one (line 133): the run answers 200 and issues two
status updates. -/
theorem handleAdd_different_mac_not_rejected :
    ∀ fresh : Bool,
      (matching scenarioPodRequest [scenarioV4, scenarioV6OtherMAC] =
          [scenarioV4, scenarioV6OtherMAC] ∧
        scenarioV4.Spec.Address.MAC ≠ scenarioV6OtherMAC.Spec.Address.MAC ∧
        (handleAdd (scenarioEnv [scenarioV4, scenarioV6OtherMAC] fresh) scenarioRequest).exit =
          .panicked ∧
        (handleAdd (scenarioEnv [scenarioV4, scenarioV6OtherMAC] fresh)
          scenarioRequest).responses = []) ∧
      (matching scenarioPodRequest [scenarioV4Blank, scenarioV6] =
          [scenarioV4Blank, scenarioV6] ∧
        scenarioV4Blank.Spec.Address.MAC ≠ scenarioV6.Spec.Address.MAC ∧
        (handleAdd (scenarioEnv [scenarioV4Blank, scenarioV6] fresh)
          scenarioRequest).responses.map Prod.fst = [200] ∧
        (handleAdd (scenarioEnv [scenarioV4Blank, scenarioV6] fresh)
          scenarioRequest).statusUpdates.length = 2) := by
  decide

/-- C3, at two failing inputs. With the instances network id 7 and no network
id, both with the MAC `aa:bb:cc:dd:ee:ff`, the run ends in the nil dereference
of line 137 and writes no response. With the instances no network id and empty
MAC, and network id 7 with the MAC `aa:bb:cc:dd:ee:ff`, the run calls
`configureNic` and answers 200. -/
theorem handleAdd_different_netID_not_rejected :
    ∀ fresh : Bool,
      (matching scenarioPodRequest [scenarioV4, scenarioV6NoNetID] =
          [scenarioV4, scenarioV6NoNetID] ∧
        scenarioV4.Spec.Address.NetID ≠ scenarioV6NoNetID.Spec.Address.NetID ∧
        handleAdd (scenarioEnv [scenarioV4, scenarioV6NoNetID] fresh) scenarioRequest =
          ⟨[Event.sleep 5000, Event.getPod "p1" "ns1", Event.listIPInstances "node1" "p1"],
            .panicked⟩) ∧
      (matching scenarioPodRequest [scenarioV4Blank, scenarioV6] =
          [scenarioV4Blank, scenarioV6] ∧
        scenarioV4Blank.Spec.Address.NetID ≠ scenarioV6.Spec.Address.NetID ∧
        (handleAdd (scenarioEnv [scenarioV4Blank, scenarioV6] fresh)
          scenarioRequest).responses.map Prod.fst = [200] ∧
        (handleAdd (scenarioEnv [scenarioV4Blank, scenarioV6] fresh)
          scenarioRequest).nicCalls.length = 1) := by
  decide

/-! ## What the validation does reject -/

/-- A completed range loop over instances of the pod saw pairwise different IP
versions, each IPv4 or IPv6 and not allocated before. -/
theorem rangeLoop_next_versions (env : Env) (pr : PodRequest) :
    ∀ (l : List IPInstance) (st st' : LoopState),
      (∀ x ∈ l, matchesPod pr x = true) → rangeLoop env pr l st = .next st' →
      l.Pairwise (fun a b => a.Spec.Address.Version ≠ b.Spec.Address.Version) ∧
      ∀ x ∈ l, (x.Spec.Address.Version = .IPv4 ∧ st.allocatedIPs.v4 = none) ∨
        (x.Spec.Address.Version = .IPv6 ∧ st.allocatedIPs.v6 = none) := by
  intro l
  induction l with
  | nil => intro st st' _ _; simp
  | cons x rest ih =>
    intro st st' hall h
    unfold rangeLoop at h
    cases hb : rangeBody env pr st x with
    | abort out => rw [hb] at h; simp at h
    | crash => rw [hb] at h; simp at h
    | next st1 =>
      rw [hb] at h
      have hx : matchesPod pr x = true := hall x (by simp)
      obtain ⟨hpair, hfree⟩ := ih st1 st' (fun z hz => hall z (by simp [hz])) h
      obtain ⟨-, -, -, -, halloc, -⟩ := rangeBody_next env pr st st1 x hx hb
      rcases halloc with ⟨hv, h4, h4', h6⟩ | ⟨hv, h6, h6', h4⟩
      · have hrest : ∀ z ∈ rest, z.Spec.Address.Version = .IPv6 ∧ st.allocatedIPs.v6 = none := by
          intro z hz
          rcases hfree z hz with ⟨-, hc⟩ | ⟨hz6, hn⟩
          · rw [hc] at h4'; simp at h4'
          · exact ⟨hz6, by rw [← h6]; exact hn⟩
        refine ⟨List.pairwise_cons.mpr ⟨?_, hpair⟩, ?_⟩
        · intro z hz; rw [hv, (hrest z hz).1]; simp
        · intro z hz
          rcases List.mem_cons.mp hz with rfl | hz
          · exact Or.inl ⟨hv, h4⟩
          · exact Or.inr (hrest z hz)
      · have hrest : ∀ z ∈ rest, z.Spec.Address.Version = .IPv4 ∧ st.allocatedIPs.v4 = none := by
          intro z hz
          rcases hfree z hz with ⟨hz4, hn⟩ | ⟨-, hc⟩
          · exact ⟨hz4, by rw [← h4]; exact hn⟩
          · rw [hc] at h6'; simp at h6'
        refine ⟨List.pairwise_cons.mpr ⟨?_, hpair⟩, ?_⟩
        · intro z hz; rw [hv, (hrest z hz).1]; simp
        · intro z hz
          rcases List.mem_cons.mp hz with rfl | hz
          · exact Or.inr ⟨hv, h6⟩
          · exact Or.inl (hrest z hz)

/-- Once a MAC or a network id is recorded, a completed range loop over
instances of the pod keeps both, and saw only instances with the recorded MAC
and, when a network id is recorded, with that network id. -/
theorem rangeLoop_next_recorded (env : Env) (pr : PodRequest) :
    ∀ (l : List IPInstance) (st st' : LoopState),
      (∀ x ∈ l, matchesPod pr x = true) → ¬ (st.netID = none ∧ st.macAddr = "") →
      rangeLoop env pr l st = .next st' →
      st'.netID = st.netID ∧ st'.macAddr = st.macAddr ∧
      ∀ x ∈ l, x.Spec.Address.MAC = st.macAddr ∧
        (st.netID = none ∨ x.Spec.Address.NetID = st.netID) := by
  intro l
  induction l with
  | nil =>
    intro st st' _ _ h
    simp only [rangeLoop] at h
    injection h with h
    subst h
    simp
  | cons x rest ih =>
    intro st st' hall hset h
    unfold rangeLoop at h
    cases hb : rangeBody env pr st x with
    | abort out => rw [hb] at h; simp at h
    | crash => rw [hb] at h; simp at h
    | next st1 =>
      rw [hb] at h
      have hx : matchesPod pr x = true := hall x (by simp)
      obtain ⟨-, -, -, -, -, hid⟩ := rangeBody_next env pr st st1 x hx hb
      rcases hid with ⟨h1, h2, -, -⟩ | ⟨-, hn, hm, hxm, hxn⟩
      · exact absurd ⟨h1, h2⟩ hset
      · have hset1 : ¬ (st1.netID = none ∧ st1.macAddr = "") := by rw [hn, hm]; exact hset
        obtain ⟨hn', hm', hrest⟩ := ih st1 st' (fun z hz => hall z (by simp [hz])) hset1 h
        refine ⟨by rw [hn', hn], by rw [hm', hm], ?_⟩
        intro z hz
        rcases List.mem_cons.mp hz with rfl | hz
        · exact ⟨hxm.symm, hxn.imp id Eq.symm⟩
        · have := hrest z hz
          rw [hn, hm] at this
          exact this

/-- A completed range loop from the initial locals, over instances of the pod
none of which has both an empty MAC and no network id: the first instance is the
recorded one, and every instance has its MAC and, when it has a network id, its
network id. -/
theorem rangeLoop_next_first (env : Env) (pr : PodRequest) (x : IPInstance)
    (rest : List IPInstance) (st' : LoopState)
    (hall : ∀ z ∈ x :: rest, matchesPod pr z = true)
    (hblank : ∀ z ∈ x :: rest, ¬ (z.Spec.Address.MAC = "" ∧ z.Spec.Address.NetID = none))
    (h : rangeLoop env pr (x :: rest) LoopState.init = .next st') :
    st'.netID = x.Spec.Address.NetID ∧ st'.macAddr = x.Spec.Address.MAC ∧
    ∀ z ∈ x :: rest, z.Spec.Address.MAC = x.Spec.Address.MAC ∧
      (x.Spec.Address.NetID = none ∨ z.Spec.Address.NetID = x.Spec.Address.NetID) := by
  unfold rangeLoop at h
  cases hb : rangeBody env pr LoopState.init x with
  | abort out => rw [hb] at h; simp at h
  | crash => rw [hb] at h; simp at h
  | next st1 =>
    rw [hb] at h
    have hx : matchesPod pr x = true := hall x (by simp)
    obtain ⟨-, -, -, -, -, hid⟩ := rangeBody_next env pr _ st1 x hx hb
    rcases hid with ⟨-, -, hn, hm⟩ | ⟨hnot, -⟩
    · have hset1 : ¬ (st1.netID = none ∧ st1.macAddr = "") := by
        rw [hn, hm]
        intro hc
        exact hblank x (by simp) ⟨hc.2, hc.1⟩
      obtain ⟨hn', hm', hrest⟩ :=
        rangeLoop_next_recorded env pr rest st1 st' (fun z hz => hall z (by simp [hz])) hset1 h
      refine ⟨by rw [hn', hn], by rw [hm', hm], ?_⟩
      intro z hz
      rcases List.mem_cons.mp hz with rfl | hz
      · exact ⟨rfl, Or.inr rfl⟩
      · have := hrest z hz
        rw [hn, hm] at this
        exact this
    · exact absurd ⟨rfl, rfl⟩ hnot

/-- A run that reaches the range loop, and whose range loop cannot complete with
both a MAC and a network id recorded, calls neither `configureNic` nor a status
update; when it returns it has written exactly one response, a 500, and when it
panics it has written none. -/
theorem handleAdd_rejected (env : Env) (req : Request) (pr : PodRequest)
    (items : List IPInstance)
    (hparse : req.ReadEntity = .ok pr)
    (hwait : (waitCoupled env pr retries retries 0 backOffBase).2 = true)
    (hlist : env.ListIPInstances env.NodeName pr.PodName = .ok items)
    (hfail : ∀ st', rangeLoop env pr items LoopState.init = .next st' →
      st'.macAddr = "" ∨ st'.netID = none) :
    (handleAdd env req).nicCalls = [] ∧ (handleAdd env req).statusUpdates = [] ∧
    ((handleAdd env req).exit = .returned →
      ∃ msg, (handleAdd env req).responses =
        [(500, { IPAddress := [], HostInterface := "", Err := msg })]) ∧
    ((handleAdd env req).exit = .panicked → (handleAdd env req).responses = []) := by
  obtain ⟨k, msg, _, hshape⟩ := waitCoupled_shape env pr retries retries 0 backOffBase
  rw [hwait] at hshape
  simp only [if_true, List.append_nil] at hshape
  have hrun : handleAdd env req =
      Run.after (pollTrace pr k backOffBase ++ [Event.listIPInstances env.NodeName pr.PodName])
        (validateAndConfigure env pr items) := by
    unfold handleAdd
    simp only [hparse, hwait, if_true, hlist, hshape]
  rw [hrun]
  unfold validateAndConfigure
  cases hloop : rangeLoop env pr items LoopState.init with
  | crash =>
    simp [Run.after, Run.nicCalls, Run.statusUpdates, Run.responses, List.filterMap_append,
      pollTrace_nicCalls, pollTrace_statusUpdates, pollTrace_responses, Event.nicCall?,
      Event.statusUpdate?, Event.response?]
  | abort out =>
    obtain ⟨msg1, hout⟩ := rangeLoop_abort env pr items _ out hloop
    subst hout
    refine ⟨?_, ?_, fun _ => ⟨msg1, ?_⟩, fun h => ?_⟩
    · simp [Run.after, Run.nicCalls, List.filterMap_append, pollTrace_nicCalls,
        Event.nicCall?, errorWrapper]
    · simp [Run.after, Run.statusUpdates, List.filterMap_append, pollTrace_statusUpdates,
        Event.statusUpdate?, errorWrapper]
    · simp [Run.after, Run.responses, List.filterMap_append, pollTrace_responses,
        Event.response?, errorWrapper, StatusInternalServerError]
    · simp [Run.after] at h
  | next st =>
    have hbad := hfail st hloop
    simp only [finishAdd, if_pos hbad]
    refine ⟨?_, ?_, fun _ => ⟨"no available ip for pod " ++ pr.PodNamespace ++ "/" ++
      pr.PodName, ?_⟩, fun h => ?_⟩
    · simp [Run.after, Run.nicCalls, List.filterMap_append, pollTrace_nicCalls,
        Event.nicCall?, errorWrapper]
    · simp [Run.after, Run.statusUpdates, List.filterMap_append, pollTrace_statusUpdates,
        Event.statusUpdate?, errorWrapper]
    · simp only [Run.after, Run.responses, List.filterMap_append, pollTrace_responses,
        List.filterMap_cons, List.filterMap_nil, Event.response?, errorWrapper,
        StatusInternalServerError, List.nil_append]
    · simp [Run.after] at h

/-- Duplicate IP versions. For a run that reaches the range loop: if two of the
listed instances of the pod (at different positions) have the same IP version,
`configureNic` is not called, no status update is issued, and a run that returns
has written exactly one response, a 500. (A run that does not return ended in
the nil dereference of line 137; see `rangeBody_crash`.) -/
theorem handleAdd_duplicate_version (env : Env) (req : Request) (pr : PodRequest)
    (items : List IPInstance)
    (hparse : req.ReadEntity = .ok pr)
    (hwait : (waitCoupled env pr retries retries 0 backOffBase).2 = true)
    (hlist : env.ListIPInstances env.NodeName pr.PodName = .ok items)
    (hdup : ∃ (i j : Nat) (hi : i < (matching pr items).length)
      (hj : j < (matching pr items).length), i < j ∧
      ((matching pr items).get ⟨i, hi⟩).Spec.Address.Version =
        ((matching pr items).get ⟨j, hj⟩).Spec.Address.Version) :
    (handleAdd env req).nicCalls = [] ∧ (handleAdd env req).statusUpdates = [] ∧
    ((handleAdd env req).exit = .returned →
      ∃ msg, (handleAdd env req).responses =
        [(500, { IPAddress := [], HostInterface := "", Err := msg })]) := by
  have h := handleAdd_rejected env req pr items hparse hwait hlist (by
    intro st' hloop
    rw [rangeLoop_matching] at hloop
    obtain ⟨hpair, -⟩ := rangeLoop_next_versions env pr (matching pr items) _ st'
      (fun x hx => (List.mem_filter.mp hx).2) hloop
    obtain ⟨i, j, hi, hj, hij, heq⟩ := hdup
    exact absurd heq (List.pairwise_iff_getElem.mp hpair i j hi hj hij))
  exact ⟨h.1, h.2.1, h.2.2.1⟩

/-- Different MACs. For a run that reaches the range loop: if two listed
instances of the pod have different MACs, and no listed instance of the pod has
both an empty MAC and no network id, then `configureNic` is not called, no
status update is issued, and a run that returns has written exactly one
response, a 500. -/
theorem handleAdd_different_mac (env : Env) (req : Request) (pr : PodRequest)
    (items : List IPInstance)
    (hparse : req.ReadEntity = .ok pr)
    (hwait : (waitCoupled env pr retries retries 0 backOffBase).2 = true)
    (hlist : env.ListIPInstances env.NodeName pr.PodName = .ok items)
    (hblank : ∀ z ∈ matching pr items,
      ¬ (z.Spec.Address.MAC = "" ∧ z.Spec.Address.NetID = none))
    (hdiff : ∃ a ∈ matching pr items, ∃ b ∈ matching pr items,
      a.Spec.Address.MAC ≠ b.Spec.Address.MAC) :
    (handleAdd env req).nicCalls = [] ∧ (handleAdd env req).statusUpdates = [] ∧
    ((handleAdd env req).exit = .returned →
      ∃ msg, (handleAdd env req).responses =
        [(500, { IPAddress := [], HostInterface := "", Err := msg })]) := by
  have h := handleAdd_rejected env req pr items hparse hwait hlist (by
    intro st' hloop
    rw [rangeLoop_matching] at hloop
    obtain ⟨a, ha, b, hb, hab⟩ := hdiff
    cases hm : matching pr items with
    | nil => rw [hm] at ha; simp at ha
    | cons x rest =>
      rw [hm] at hloop ha hb hblank
      obtain ⟨-, -, hsame⟩ := rangeLoop_next_first env pr x rest st'
        (fun z hz => (List.mem_filter.mp (by rw [matching] at hm; rw [hm]; exact hz)).2)
        hblank hloop
      exact absurd ((hsame a ha).1.trans (hsame b hb).1.symm) hab)
  exact ⟨h.1, h.2.1, h.2.2.1⟩

/-- Different network ids. For a run that reaches the range loop: if two listed
instances of the pod have different network ids (one of them possibly none), and
no listed instance of the pod has both an empty MAC and no network id, then
`configureNic` is not called, no status update is issued, and a run that returns
has written exactly one response, a 500. -/
theorem handleAdd_different_netID (env : Env) (req : Request) (pr : PodRequest)
    (items : List IPInstance)
    (hparse : req.ReadEntity = .ok pr)
    (hwait : (waitCoupled env pr retries retries 0 backOffBase).2 = true)
    (hlist : env.ListIPInstances env.NodeName pr.PodName = .ok items)
    (hblank : ∀ z ∈ matching pr items,
      ¬ (z.Spec.Address.MAC = "" ∧ z.Spec.Address.NetID = none))
    (hdiff : ∃ a ∈ matching pr items, ∃ b ∈ matching pr items,
      a.Spec.Address.NetID ≠ b.Spec.Address.NetID) :
    (handleAdd env req).nicCalls = [] ∧ (handleAdd env req).statusUpdates = [] ∧
    ((handleAdd env req).exit = .returned →
      ∃ msg, (handleAdd env req).responses =
        [(500, { IPAddress := [], HostInterface := "", Err := msg })]) := by
  have h := handleAdd_rejected env req pr items hparse hwait hlist (by
    intro st' hloop
    rw [rangeLoop_matching] at hloop
    obtain ⟨a, ha, b, hb, hab⟩ := hdiff
    cases hm : matching pr items with
    | nil => rw [hm] at ha; simp at ha
    | cons x rest =>
      rw [hm] at hloop ha hb hblank
      obtain ⟨hn, -, hsame⟩ := rangeLoop_next_first env pr x rest st'
        (fun z hz => (List.mem_filter.mp (by rw [matching] at hm; rw [hm]; exact hz)).2)
        hblank hloop
      right
      rw [hn]
      rcases (hsame a ha).2 with hnone | haeq
      · exact hnone
      · rcases (hsame b hb).2 with hnone | hbeq
        · exact hnone
        · exact absurd (haeq.trans hbeq.symm) hab)
  exact ⟨h.1, h.2.1, h.2.2.1⟩

/-! ## Remote cluster manager: construction -/

/-- The three shapes of the result of `NewRemoteClusterManager`: a manager with a
nil error, a nil manager with an error, and, exactly when a construction step
panicked, a nil manager with a nil error. -/
theorem NewRemoteClusterManager_results (deps : ClusterDeps) (rc : Option RemoteCluster)
    (localKube : Option Clientset) (localRama : Clientset) :
    (∃ m, NewRemoteClusterManager deps rc localKube localRama = (some m, none)) ∨
    (∃ err, NewRemoteClusterManager deps rc localKube localRama = (none, some err)) ∨
    (NewRemoteClusterManager deps rc localKube localRama = (none, none) ∧
      ∃ msg, newRemoteClusterManagerBody deps rc localKube localRama = .panic msg) := by
  unfold NewRemoteClusterManager
  cases hbody : newRemoteClusterManagerBody deps rc localKube localRama with
  | panic msg => exact Or.inr (Or.inr ⟨rfl, msg, rfl⟩)
  | ret results =>
    unfold newRemoteClusterManagerBody at hbody
    cases rc with
    | none => simp at hbody
    | some rc =>
      simp only [bind, pure] at hbody
      cases hb : deps.BuildClusterConfig rc with
      | panic msg => simp [hb, Call.bind] at hbody
      | ret built =>
        cases built with
        | error err =>
          simp only [hb, Call.bind, Call.ret.injEq] at hbody
          exact Or.inr (Or.inl ⟨err, hbody.symm⟩)
        | ok config =>
          cases localKube with
          | none => simp [hb, Call.bind] at hbody
          | some localKube =>
            cases hk : deps.NewKubeForConfigOrDie config with
            | panic msg => simp [hb, hk, Call.bind] at hbody
            | ret kubeClient =>
              cases hr : deps.NewRamaForConfigOrDie (AddUserAgent config UserAgentName) with
              | panic msg => simp [hb, hk, hr, Call.bind] at hbody
              | ret ramaClient =>
                cases hu : deps.GetUUID kubeClient with
                | panic msg => simp [hb, hk, hr, hu, Call.bind] at hbody
                | ret resolved =>
                  cases resolved with
                  | error err =>
                    simp only [hb, hk, hr, hu, Call.bind, Call.ret.injEq] at hbody
                    exact Or.inr (Or.inl ⟨err, hbody.symm⟩)
                  | ok uuid =>
                    simp only [hb, hk, hr, hu, Call.bind, Call.ret.injEq] at hbody
                    exact Or.inl ⟨_, hbody.symm⟩

/-- A manager returned by the constructor has its stop channel open, readiness
false, no informer started and no cache synced. -/
theorem NewRemoteClusterManager_manager (deps : ClusterDeps) (rc : Option RemoteCluster)
    (localKube : Option Clientset) (localRama : Clientset) (m : Manager) (err : Option String)
    (h : NewRemoteClusterManager deps rc localKube localRama = (some m, err)) :
    err = none ∧ m.IsReady = false ∧ m.StopCh = .opened ∧ m.informersStarted = false ∧
    m.NodeSynced = false ∧ m.SubnetSynced = false ∧ m.IPSynced = false := by
  unfold NewRemoteClusterManager at h
  cases hbody : newRemoteClusterManagerBody deps rc localKube localRama with
  | panic msg => simp [hbody] at h
  | ret results =>
    simp only [hbody] at h
    subst h
    unfold newRemoteClusterManagerBody at hbody
    cases rc with
    | none => simp at hbody
    | some rc =>
      simp only [bind, pure] at hbody
      cases hb : deps.BuildClusterConfig rc with
      | panic msg => simp [hb, Call.bind] at hbody
      | ret built =>
        cases built with
        | error err => simp [hb, Call.bind] at hbody
        | ok config =>
          cases localKube with
          | none => simp [hb, Call.bind] at hbody
          | some localKube =>
            cases hk : deps.NewKubeForConfigOrDie config with
            | panic msg => simp [hb, hk, Call.bind] at hbody
            | ret kubeClient =>
              cases hr : deps.NewRamaForConfigOrDie (AddUserAgent config UserAgentName) with
              | panic msg => simp [hb, hk, hr, Call.bind] at hbody
              | ret ramaClient =>
                cases hu : deps.GetUUID kubeClient with
                | panic msg => simp [hb, hk, hr, hu, Call.bind] at hbody
                | ret resolved =>
                  cases resolved with
                  | error err => simp [hb, hk, hr, hu, Call.bind] at hbody
                  | ok uuid =>
                    simp only [hb, hk, hr, hu, Call.bind, Call.ret.injEq, Prod.mk.injEq,
                      Option.some.injEq] at hbody
                    obtain ⟨hm, herr⟩ := hbody
                    subst hm
                    exact ⟨herr.symm, rfl, rfl, rfl, rfl, rfl, rfl⟩

/-- C7, at a failing input. With a cluster config from which the client
constructor panics, the deferred function recovers the panic and
`NewRemoteClusterManager` returns a nil manager together with a nil error; with
a nil `rc` it does the same. With collaborators that succeed it returns the
manager and a nil error. -/
theorem NewRemoteClusterManager_recovered_panic :
    NewRemoteClusterManager brokenConfigDeps (some scenarioCluster) (some localClientset)
      localClientset = (none, none) ∧
    NewRemoteClusterManager scenarioDeps none (some localClientset) localClientset =
      (none, none) ∧
    NewRemoteClusterManager scenarioDeps (some scenarioCluster) (some localClientset)
      localClientset = (some scenarioManager, none) := by
  decide

/-! ## Remote cluster manager: readiness -/

/-- An operation other than `SetIsReady` leaves the readiness flag as it is, and
adds to the observed values at most the value of the flag. -/
theorem Session.step_readiness (s s1 : Session) (op : Op) (hop : op.isSet = false)
    (h : s.step op = .ret s1) :
    s1.manager.IsReady = s.manager.IsReady ∧
    (s1.observed = s.observed ∨ s1.observed = s.observed ++ [s.manager.IsReady]) := by
  cases op with
  | Run =>
    simp only [Session.step, Call.ret.injEq] at h
    subst h
    exact ⟨rfl, Or.inl rfl⟩
  | Close =>
    simp only [Session.step, Manager.Close] at h
    cases hch : s.manager.StopCh with
    | closed => simp [hch] at h
    | opened =>
      simp only [hch, Call.ret.injEq] at h
      subst h
      exact ⟨rfl, Or.inl rfl⟩
  | GetIsReady =>
    simp only [Session.step, Call.ret.injEq] at h
    subst h
    exact ⟨rfl, Or.inr rfl⟩
  | SetIsReady val => simp [Op.isSet] at hop
  | cacheSynced k =>
    simp only [Session.step, Call.ret.injEq] at h
    subst h
    refine ⟨?_, Or.inl rfl⟩
    simp only [Manager.cacheSynced]
    split
    · cases k <;> rfl
    · rfl
  | waiterStep =>
    simp only [Session.step, Call.ret.injEq] at h
    subst h
    refine ⟨?_, Or.inl rfl⟩
    simp only [Manager.waiterStep]
    split
    · rfl
    · split
      · rfl
      · split <;> rfl

/-- A sequence of operations without `SetIsReady` leaves the readiness flag as
it is, and every `GetIsReady` in it returns the value of the flag. -/
theorem Session.exec_readiness :
    ∀ (ops : List Op) (s : Session), (∀ op ∈ ops, op.isSet = false) →
      (s.exec ops).1.manager.IsReady = s.manager.IsReady ∧
      ∃ n, (s.exec ops).1.observed = s.observed ++ List.replicate n s.manager.IsReady := by
  intro ops
  induction ops with
  | nil => intro s _; exact ⟨rfl, 0, by simp [Session.exec]⟩
  | cons op rest ih =>
    intro s hops
    unfold Session.exec
    cases hstep : s.step op with
    | panic msg => exact ⟨rfl, 0, by simp⟩
    | ret s1 =>
      obtain ⟨hready, hobs⟩ := Session.step_readiness s s1 op (hops op (by simp)) hstep
      obtain ⟨hready', n, hobs'⟩ := ih s1 (fun o ho => hops o (by simp [ho]))
      refine ⟨by simp only; rw [hready', hready], ?_⟩
      rcases hobs with hobs | hobs
      · exact ⟨n, by simp only; rw [hobs', hobs, hready]⟩
      · refine ⟨n + 1, ?_⟩
        simp only
        rw [hobs', hobs, hready, List.append_assoc]
        rfl

/-- Counterexample to C8 as stated: on a newly constructed manager, before `Run`
and before any cache has synced, `SetIsReady(true)` makes the readiness flag
true while the manager is still in the state Constructed. -/
theorem SetIsReady_before_sync :
    scenarioManager.phase = .Constructed ∧
    (scenarioManager.NodeSynced = false ∧ scenarioManager.SubnetSynced = false ∧
      scenarioManager.IPSynced = false) ∧
    (scenarioManager.SetIsReady true).GetIsReady = true ∧
    (scenarioManager.SetIsReady true).phase = .Constructed ∧
    ((Session.exec ⟨scenarioManager, []⟩ [.SetIsReady true, .GetIsReady, .Run,
      .GetIsReady]).1.observed = [true, true]) := by
  decide

/-- C8, as amended. `SetIsReady(v)` stores `v` in the readiness flag in every
state of the manager, whether or not the three caches have synced, and changes
nothing else: the state of the state machine is the one before the call. -/
theorem SetIsReady_unconditional (m : Manager) (val : Bool) :
    (m.SetIsReady val).GetIsReady = val ∧
    (m.SetIsReady val).phase = m.phase ∧
    m.SetIsReady val = { m with IsReady := val } := by
  exact ⟨rfl, rfl, rfl⟩

/-- C9. A manager returned by `NewRemoteClusterManager` has readiness false; in
every sequence of operations on it without `SetIsReady` (calls of `Run`, `Close`
and `GetIsReady`, and the steps of the informers and of the goroutines of `Run`)
every `GetIsReady` returns false; and after any sequence of operations followed
by `SetIsReady(v)`, every `GetIsReady` returns `v` as long as no further
`SetIsReady` is called. -/
theorem readiness_only_by_SetIsReady (deps : ClusterDeps) (rc : Option RemoteCluster)
    (localKube : Option Clientset) (localRama : Clientset) (m : Manager)
    (hnew : NewRemoteClusterManager deps rc localKube localRama = (some m, none))
    (ops before later : List Op) (val : Bool)
    (hops : ∀ op ∈ ops, op.isSet = false) (hlater : ∀ op ∈ later, op.isSet = false) :
    m.GetIsReady = false ∧
    (∀ b ∈ (Session.exec ⟨m, []⟩ ops).1.observed, b = false) ∧
    (Session.exec ⟨m, []⟩ ops).1.manager.GetIsReady = false ∧
    (∀ b ∈ (Session.exec
        ⟨((Session.exec ⟨m, []⟩ before).1.manager.SetIsReady val), []⟩ later).1.observed,
      b = val) ∧
    (Session.exec
      ⟨((Session.exec ⟨m, []⟩ before).1.manager.SetIsReady val), []⟩ later).1.manager.GetIsReady =
      val := by
  obtain ⟨-, hfalse, -⟩ := NewRemoteClusterManager_manager deps rc localKube localRama m none hnew
  obtain ⟨hready, n, hobs⟩ := Session.exec_readiness ops ⟨m, []⟩ hops
  obtain ⟨hready', n', hobs'⟩ := Session.exec_readiness later
    ⟨((Session.exec ⟨m, []⟩ before).1.manager.SetIsReady val), []⟩ hlater
  refine ⟨hfalse, ?_, ?_, ?_, ?_⟩
  · intro b hb
    rw [hobs] at hb
    simp only [List.nil_append] at hb
    rw [List.eq_of_mem_replicate hb]
    exact hfalse
  · simp only [Manager.GetIsReady]
    rw [hready]
    exact hfalse
  · intro b hb
    rw [hobs'] at hb
    simp only [List.nil_append] at hb
    rw [List.eq_of_mem_replicate hb]
    rfl
  · simp only [Manager.GetIsReady]
    rw [hready']
    rfl

/-- Witness of C9: the scenario manager, run until its caches have synced and
then closed, and set ready after a first run. -/
theorem readiness_only_by_SetIsReady_witness :
    scenarioManager.GetIsReady = false ∧
    (∀ b ∈ (Session.exec ⟨scenarioManager, []⟩
        [.GetIsReady, .Run, .cacheSynced .node, .cacheSynced .subnet, .cacheSynced .ipInstance,
         .waiterStep, .GetIsReady, .Close, .GetIsReady]).1.observed, b = false) ∧
    (Session.exec ⟨scenarioManager, []⟩
        [.GetIsReady, .Run, .cacheSynced .node, .cacheSynced .subnet, .cacheSynced .ipInstance,
         .waiterStep, .GetIsReady, .Close, .GetIsReady]).1.manager.GetIsReady = false ∧
    (∀ b ∈ (Session.exec
        ⟨((Session.exec ⟨scenarioManager, []⟩ [.Run, .SetIsReady false]).1.manager.SetIsReady
          true), []⟩ [.GetIsReady, .Close, .GetIsReady]).1.observed,
      b = true) ∧
    (Session.exec
      ⟨((Session.exec ⟨scenarioManager, []⟩ [.Run, .SetIsReady false]).1.manager.SetIsReady
        true), []⟩ [.GetIsReady, .Close, .GetIsReady]).1.manager.GetIsReady = true :=
  readiness_only_by_SetIsReady scenarioDeps (some scenarioCluster) (some localClientset)
    localClientset scenarioManager (by decide)
    [.GetIsReady, .Run, .cacheSynced .node, .cacheSynced .subnet, .cacheSynced .ipInstance,
     .waiterStep, .GetIsReady, .Close, .GetIsReady]
    [.Run, .SetIsReady false] [.GetIsReady, .Close, .GetIsReady] true
    (by decide) (by decide)

/-! ## One response per run, with exclusive error and success fields -/

/-- A text that starts with a non-empty text is not empty. -/
theorem text_append_ne (a b : String) (h : a ≠ "") : a ++ b ≠ "" := by
  intro hc
  apply h
  have hdata : a.data ++ b.data = [] := by
    rw [← String.data_append, hc]
  exact String.ext (List.append_eq_nil.mp hdata).1

theorem pollTrace_writes (pr : PodRequest) :
    ∀ (k b : Nat), (pollTrace pr k b).countP Event.isWrite = 0 := by
  intro k
  induction k with
  | zero => intro b; simp [pollTrace]
  | succ k ih => intro b; simp [pollTrace, List.countP_cons, Event.isWrite, ih]

theorem updateEvents_writes (containerID : String) (l : List IPInstance) :
    (l.map (updateEvent containerID)).countP Event.isWrite = 0 := by
  induction l with
  | nil => rfl
  | cons x rest ih =>
    simp only [List.map_cons, List.countP_cons, ih, updateEvent, Event.isWrite]
    simp

/-- Events that are no writes carry no response. -/
theorem responses_of_no_writes (t : List Event) (h : t.countP Event.isWrite = 0) :
    t.filterMap Event.response? = [] := by
  induction t with
  | nil => rfl
  | cons e rest ih =>
    rw [List.countP_cons] at h
    cases e <;> simp_all [Event.isWrite, Event.response?, List.filterMap_cons]

/-- An error response after events that are no writes. -/
theorem errorWrapper_ends (pre : List Event) (msg : String) (status : Nat)
    (hpre : pre.countP Event.isWrite = 0) (hmsg : msg ≠ "")
    (hstatus : status = StatusBadRequest ∨ status = StatusInternalServerError) :
    EndsWithResponse (pre ++ errorWrapper msg status) :=
  ⟨pre, status, _, rfl, hpre, Or.inr ⟨hstatus, hmsg, rfl, rfl⟩⟩

/-- What a trace that ends with its one response says about the run. -/
theorem EndsWithResponse.spec (t : List Event) (h : EndsWithResponse t) :
    t.countP Event.isWrite = 1 ∧
    ∀ status body, (status, body) ∈ t.filterMap Event.response? →
      (successStatus status = false →
        body.Err ≠ "" ∧ body.IPAddress = [] ∧ body.HostInterface = "") ∧
      (successStatus status = true → body.Err = "") := by
  obtain ⟨pre, status, body, rfl, hpre, hkind⟩ := h
  refine ⟨by simp [List.countP_append, hpre, Event.isWrite, List.countP_cons], ?_⟩
  intro status1 body1 hmem
  rw [List.filterMap_append, responses_of_no_writes pre hpre] at hmem
  simp only [List.filterMap_cons, Event.response?, List.filterMap_nil, List.nil_append,
    List.mem_singleton, Prod.mk.injEq] at hmem
  obtain ⟨rfl, rfl⟩ := hmem
  rcases hkind with ⟨hs, herr⟩ | ⟨hs, herr, haddr, hhost⟩
  · subst hs
    exact ⟨fun hc => by simp [successStatus, StatusOK] at hc, fun _ => herr⟩
  · refine ⟨fun _ => ⟨herr, haddr, hhost⟩, fun hc => ?_⟩
    rcases hs with hs | hs <;> subst hs <;>
      simp [successStatus, StatusBadRequest, StatusInternalServerError] at hc

/-- The polling loop, with the error text: some attempts, followed by a 400
response with a non-empty text exactly when the handler returned from inside
the loop. -/
theorem waitCoupled_text (env : Env) (pr : PodRequest) (R : Nat) :
    ∀ (n i b : Nat), ∃ k msg, msg ≠ "" ∧
      (waitCoupled env pr R n i b).1 = pollTrace pr k b ++
        (if (waitCoupled env pr R n i b).2 then [] else errorWrapper msg StatusBadRequest) := by
  intro n
  induction n with
  | zero => intro i b; exact ⟨0, "-", by decide, by simp [waitCoupled, pollTrace]⟩
  | succ n ih =>
    intro i b
    unfold waitCoupled
    cases hget : env.GetPod i pr.PodName pr.PodNamespace with
    | error e =>
      refine ⟨1, "failed to get pod " ++ pr.PodName ++ "/" ++ pr.PodNamespace ++ ": " ++ e,
        ?_, by simp [pollTrace]⟩
      repeat (first | exact (by decide) | apply text_append_ne)
    | ok pod =>
      by_cases hann : (pod.Annotations.lookup env.AnnotationIP).isSome = true
      · exact ⟨1, "-", by decide, by simp [hann, pollTrace]⟩
      · by_cases hlast : i = R - 1
        · refine ⟨1, "failed to wait for pod " ++ pr.PodName ++ "/" ++ pr.PodNamespace ++
            " be coupled with ip: <nil>", ?_, by simp [hann, hlast, pollTrace]⟩
          repeat (first | exact (by decide) | apply text_append_ne)
        · obtain ⟨k, msg, hmsg, hshape⟩ := ih (i + 1) (b * 2)
          refine ⟨k + 1, msg, hmsg, ?_⟩
          simp only [hann, hlast, if_false, Bool.false_eq_true]
          simp only [pollTrace, hshape]
          simp

/-- A merge that ends the handler wrote a 500 response with a non-empty text. -/
theorem mergeInstance_abort_text (env : Env) (pr : PodRequest) (st : LoopState)
    (x : IPInstance) (out : List Event) (h : mergeInstance env pr st x = .abort out) :
    ∃ msg, msg ≠ "" ∧ out = errorWrapper msg StatusInternalServerError := by
  unfold mergeInstance at h
  cases hp : env.ParseCIDR x.Spec.Address.IP with
  | error e =>
    simp only [hp] at h
    injection h with h
    refine ⟨_, ?_, h.symm⟩
    repeat (first | exact (by decide) | apply text_append_ne)
  | ok parsed =>
    obtain ⟨containerIP, cidrNet⟩ := parsed
    simp only [hp] at h
    cases hv : x.Spec.Address.Version with
    | IPv4 =>
      simp only [hv] at h
      cases h4 : st.allocatedIPs.v4 with
      | some info =>
        simp only [h4, Option.isSome_some, if_true] at h
        injection h with h
        refine ⟨_, ?_, h.symm⟩
        repeat (first | exact (by decide) | apply text_append_ne)
      | none =>
        simp only [h4, Option.isSome_none, Bool.false_eq_true, if_false] at h
        by_cases hn : st.networkName = ""
        · simp [hn] at h
        · by_cases hd : st.networkName = x.Spec.Network
          · simp [hn, hd] at h
          · simp only [hn, if_false, hd, ne_eq, not_false_eq_true, if_true] at h
            injection h with h
            refine ⟨_, ?_, h.symm⟩
            repeat (first | exact (by decide) | apply text_append_ne)
    | IPv6 =>
      simp only [hv] at h
      cases h6 : st.allocatedIPs.v6 with
      | some info =>
        simp only [h6, Option.isSome_some, if_true] at h
        injection h with h
        refine ⟨_, ?_, h.symm⟩
        repeat (first | exact (by decide) | apply text_append_ne)
      | none =>
        simp only [h6, Option.isSome_none, Bool.false_eq_true, if_false] at h
        by_cases hn : st.networkName = ""
        · simp [hn] at h
        · by_cases hd : st.networkName = x.Spec.Network
          · simp [hn, hd] at h
          · simp only [hn, if_false, hd, ne_eq, not_false_eq_true, if_true] at h
            injection h with h
            refine ⟨_, ?_, h.symm⟩
            repeat (first | exact (by decide) | apply text_append_ne)
    | other raw =>
      simp only [hv] at h
      injection h with h
      refine ⟨_, ?_, h.symm⟩
      repeat (first | exact (by decide) | apply text_append_ne)

/-- An iteration that ends the handler wrote a 500 response with a non-empty
text. -/
theorem rangeBody_abort_text (env : Env) (pr : PodRequest) (st : LoopState) (x : IPInstance)
    (out : List Event) (h : rangeBody env pr st x = .abort out) :
    ∃ msg, msg ≠ "" ∧ out = errorWrapper msg StatusInternalServerError := by
  unfold rangeBody at h
  by_cases hm : matchesPod pr x = true
  · rw [if_pos hm] at h
    by_cases hfirst : st.netID = none ∧ st.macAddr = ""
    · rw [if_pos hfirst] at h
      exact mergeInstance_abort_text env pr _ x out h
    · rw [if_neg hfirst] at h
      cases hmis : mismatch st.netID st.macAddr x.Spec.Address with
      | none => simp [hmis] at h
      | some b =>
        cases b with
        | true =>
          simp only [hmis] at h
          injection h with h
          refine ⟨_, ?_, h.symm⟩
          repeat (first | exact (by decide) | apply text_append_ne)
        | false =>
          simp only [hmis] at h
          exact mergeInstance_abort_text env pr _ x out h
  · rw [if_neg hm] at h
    simp at h

/-- A range loop that ends the handler wrote a 500 response with a non-empty
text. -/
theorem rangeLoop_abort_text (env : Env) (pr : PodRequest) :
    ∀ (items : List IPInstance) (st : LoopState) (out : List Event),
      rangeLoop env pr items st = .abort out →
      ∃ msg, msg ≠ "" ∧ out = errorWrapper msg StatusInternalServerError := by
  intro items
  induction items with
  | nil => intro st out h; simp [rangeLoop] at h
  | cons x rest ih =>
    intro st out h
    unfold rangeLoop at h
    cases hb : rangeBody env pr st x with
    | next st1 => rw [hb] at h; exact ih st1 out h
    | abort out1 =>
      rw [hb] at h
      injection h with h
      subst h
      exact rangeBody_abort_text env pr st x out1 hb
    | crash => rw [hb] at h; simp at h

/-- The update loop wrote nothing to the response, and a failed update is
answered by a 500 response with a non-empty text. -/
theorem updateStatus_text (env : Env) (pr : PodRequest) :
    ∀ (l : List IPInstance) (k : Nat),
      (updateStatus env pr l k).1.countP Event.isWrite = 0 ∧
      ∀ out, (updateStatus env pr l k).2 = some out →
        ∃ msg, msg ≠ "" ∧ out = errorWrapper msg StatusInternalServerError := by
  intro l
  induction l with
  | nil => intro k; simp [updateStatus]
  | cons x rest ih =>
    intro k
    cases hu : env.StatusUpdate k (withSandbox pr.ContainerID x) with
    | some e =>
      rw [updateStatus_cons_some env pr x rest k e hu]
      refine ⟨by simp [updateEvent, Event.isWrite], ?_⟩
      intro out hout
      simp only [Option.some.injEq] at hout
      refine ⟨_, ?_, hout.symm⟩
      repeat (first | exact (by decide) | apply text_append_ne)
    | none =>
      rw [updateStatus_cons_none env pr x rest k hu]
      obtain ⟨hw, hout⟩ := ih (k + 1)
      exact ⟨by simp [List.countP_cons, hw, updateEvent, Event.isWrite], hout⟩

/-- The part of `handleAdd` after the range loop returns, and its one write to
the response is its last event. -/
theorem finishAdd_ends (env : Env) (pr : PodRequest) (items : List IPInstance) (st : LoopState)
    (pre : List Event) (hpre : pre.countP Event.isWrite = 0) :
    (finishAdd env pr items st).exit = .returned ∧
    EndsWithResponse (pre ++ (finishAdd env pr items st).trace) := by
  unfold finishAdd
  by_cases hvalid : st.macAddr = "" ∨ st.netID = none
  · rw [if_pos hvalid]
    refine ⟨rfl, errorWrapper_ends pre _ _ hpre ?_ (Or.inr rfl)⟩
    repeat (first | exact (by decide) | apply text_append_ne)
  · rw [if_neg hvalid]
    cases hnet : env.GetNetwork st.networkName with
    | error e =>
      refine ⟨rfl, ?_⟩
      have := errorWrapper_ends (pre ++ [Event.getNetwork st.networkName])
        ("cannot get network " ++ st.networkName) StatusInternalServerError
        (by simp [List.countP_append, hpre, Event.isWrite, List.countP_cons])
        (by repeat (first | exact (by decide) | apply text_append_ne)) (Or.inr rfl)
      simpa using this
    | ok network =>
      simp only
      cases hnic : env.configureNic
          { podName := pr.PodName, podNamespace := pr.PodNamespace, netNs := pr.NetNs,
            containerID := pr.ContainerID, macAddr := st.macAddr, netID := st.netID,
            allocatedIPs := st.allocatedIPs, networkMode := network.Mode } with
      | error e =>
        refine ⟨rfl, ?_⟩
        have := errorWrapper_ends (pre ++ [Event.getNetwork st.networkName, Event.configureNic
            { podName := pr.PodName, podNamespace := pr.PodNamespace, netNs := pr.NetNs,
              containerID := pr.ContainerID, macAddr := st.macAddr, netID := st.netID,
              allocatedIPs := st.allocatedIPs, networkMode := network.Mode }])
          ("failed to configure nic: " ++ e) StatusInternalServerError
          (by simp [List.countP_append, hpre, Event.isWrite, List.countP_cons])
          (by repeat (first | exact (by decide) | apply text_append_ne)) (Or.inr rfl)
        simpa using this
      | ok hostInterface =>
        simp only
        obtain ⟨hw, hout⟩ := updateStatus_text env pr (pointees env items st) 0
        cases hupd : (updateStatus env pr (pointees env items st) 0).2 with
        | some out =>
          obtain ⟨msg, hmsg, rfl⟩ := hout out hupd
          refine ⟨rfl, ?_⟩
          have := errorWrapper_ends (pre ++ ([Event.getNetwork st.networkName,
            Event.configureNic
              { podName := pr.PodName, podNamespace := pr.PodNamespace, netNs := pr.NetNs,
                containerID := pr.ContainerID, macAddr := st.macAddr, netID := st.netID,
                allocatedIPs := st.allocatedIPs, networkMode := network.Mode }] ++
              (updateStatus env pr (pointees env items st) 0).1))
            msg StatusInternalServerError
            (by simp [List.countP_append, hpre, hw, Event.isWrite, List.countP_cons])
            hmsg (Or.inr rfl)
          simpa using this
        | none =>
          refine ⟨rfl, pre ++ ([Event.getNetwork st.networkName, Event.configureNic
              { podName := pr.PodName, podNamespace := pr.PodNamespace, netNs := pr.NetNs,
                containerID := pr.ContainerID, macAddr := st.macAddr, netID := st.netID,
                allocatedIPs := st.allocatedIPs, networkMode := network.Mode }] ++
              (updateStatus env pr (pointees env items st) 0).1), StatusOK,
            { IPAddress := st.returnIPAddress, HostInterface := hostInterface, Err := "" },
            by simp, ?_, Or.inl ⟨rfl, rfl⟩⟩
          simp [List.countP_append, hpre, hw, Event.isWrite, List.countP_cons]

/-- A run of `handleAdd` that returns has written to the response exactly once,
as its last action; a run that panics has not written to it. -/
theorem handleAdd_ends (env : Env) (req : Request) :
    ((handleAdd env req).exit = .returned → EndsWithResponse (handleAdd env req).trace) ∧
    ((handleAdd env req).exit = .panicked →
      (handleAdd env req).trace.countP Event.isWrite = 0) := by
  unfold handleAdd
  cases hparse : req.ReadEntity with
  | error e =>
    refine ⟨fun _ => ?_, fun h => by simp at h⟩
    have := errorWrapper_ends [] ("failed to parse add request: " ++ e) StatusBadRequest rfl
      (by repeat (first | exact (by decide) | apply text_append_ne)) (Or.inl rfl)
    simpa using this
  | ok pr =>
    simp only
    obtain ⟨k, msg, hmsg, hshape⟩ := waitCoupled_text env pr retries retries 0 backOffBase
    cases hwait : (waitCoupled env pr retries retries 0 backOffBase).2 with
    | false =>
      rw [hwait] at hshape
      simp only [Bool.false_eq_true, if_false] at hshape ⊢
      rw [hshape]
      exact ⟨fun _ => errorWrapper_ends _ msg _ (pollTrace_writes pr k _) hmsg (Or.inl rfl),
        fun h => by simp at h⟩
    | true =>
      rw [hwait] at hshape
      simp only [if_true, List.append_nil] at hshape ⊢
      rw [hshape]
      cases hlist : env.ListIPInstances env.NodeName pr.PodName with
      | error e =>
        refine ⟨fun _ => ?_, fun h => by simp at h⟩
        have := errorWrapper_ends
          (pollTrace pr k backOffBase ++ [Event.listIPInstances env.NodeName pr.PodName])
          ("failed to list ip instance for pod " ++ env.NodeName ++ ": " ++ e) StatusBadRequest
          (by simp [List.countP_append, pollTrace_writes, Event.isWrite, List.countP_cons])
          (by repeat (first | exact (by decide) | apply text_append_ne)) (Or.inl rfl)
        simpa using this
      | ok items =>
        simp only
        have hpre : (pollTrace pr k backOffBase ++
            [Event.listIPInstances env.NodeName pr.PodName]).countP Event.isWrite = 0 := by
          simp [List.countP_append, pollTrace_writes, Event.isWrite, List.countP_cons]
        unfold validateAndConfigure
        cases hloop : rangeLoop env pr items LoopState.init with
        | crash =>
          refine ⟨fun h => by simp [Run.after] at h, fun _ => ?_⟩
          simpa [Run.after] using hpre
        | abort out =>
          obtain ⟨msg1, hmsg1, rfl⟩ := rangeLoop_abort_text env pr items _ out hloop
          exact ⟨fun _ => errorWrapper_ends _ msg1 _ hpre hmsg1 (Or.inr rfl),
            fun h => by simp [Run.after] at h⟩
        | next st =>
          obtain ⟨hexit, hends⟩ := finishAdd_ends env pr items st _ hpre
          refine ⟨fun _ => hends, fun h => ?_⟩
          simp only [Run.after] at h
          rw [hexit] at h
          cases h

/-- A run of `handleDel` returns after exactly one write to the response: the
status 204 alone, or a 400 or 500 response with a non-empty error text. -/
theorem handleDel_ends (env : Env) (req : Request) :
    (handleDel env req).exit = .returned ∧
    (EndsWithResponse (handleDel env req).trace ∨
      ∃ netNs, (handleDel env req).trace =
        [Event.deleteNic netNs, Event.writeHeader StatusNoContent]) := by
  unfold handleDel
  cases hparse : req.ReadEntity with
  | error e =>
    refine ⟨rfl, Or.inl ?_⟩
    have := errorWrapper_ends [] ("failed to parse del request: " ++ e) StatusBadRequest rfl
      (by repeat (first | exact (by decide) | apply text_append_ne)) (Or.inl rfl)
    simpa using this
  | ok pr =>
    simp only
    cases hdel : env.deleteNic pr.NetNs with
    | some e =>
      refine ⟨rfl, Or.inl ?_⟩
      have := errorWrapper_ends [Event.deleteNic pr.NetNs]
        ("failed to del container nic for " ++ pr.PodName ++ "." ++ pr.PodNamespace ++ ": " ++ e)
        StatusInternalServerError (by simp [Event.isWrite, List.countP_cons])
        (by repeat (first | exact (by decide) | apply text_append_ne)) (Or.inr rfl)
      simpa using this
    | none => exact ⟨rfl, Or.inr ⟨pr.NetNs, rfl⟩⟩

/-- C11. Every run of `handleAdd` or `handleDel` that returns has written to the
response exactly once (a status with a `PodResponse`, or for a successful delete
the status 204 alone), and in every `PodResponse` written by a run of either
handler a non-success status carries a non-empty error text with no address
records and an empty host interface name, and a success status carries an empty
error text. -/
theorem handlers_one_exclusive_response (env : Env) (req : Request) (r : Run)
    (hr : r = handleAdd env req ∨ r = handleDel env req) :
    (r.exit = .returned → r.writes = 1) ∧
    ∀ status body, (status, body) ∈ r.responses →
      (successStatus status = false →
        body.Err ≠ "" ∧ body.IPAddress = [] ∧ body.HostInterface = "") ∧
      (successStatus status = true → body.Err = "") := by
  rcases hr with rfl | rfl
  · obtain ⟨hret, hpanic⟩ := handleAdd_ends env req
    cases hexit : (handleAdd env req).exit with
    | returned =>
      obtain ⟨hone, hexcl⟩ := EndsWithResponse.spec _ (hret hexit)
      exact ⟨fun _ => hone, hexcl⟩
    | panicked =>
      refine ⟨fun h => absurd h (by decide), ?_⟩
      intro status body hmem
      simp only [Run.responses] at hmem
      rw [responses_of_no_writes _ (hpanic hexit)] at hmem
      simp at hmem
  · obtain ⟨-, hshape⟩ := handleDel_ends env req
    rcases hshape with hends | ⟨netNs, htrace⟩
    · obtain ⟨hone, hexcl⟩ := EndsWithResponse.spec _ hends
      exact ⟨fun _ => hone, hexcl⟩
    · refine ⟨fun _ => ?_, ?_⟩
      · simp [Run.writes, htrace, Event.isWrite, List.countP_cons]
      · intro status body hmem
        simp [Run.responses, htrace, Event.response?] at hmem

/-- Witness of C11: the add request of the scenario, answered 200 with the
address record and the interface name, and its delete. -/
theorem handlers_one_exclusive_response_witness :
    (((handleAdd (scenarioEnv [scenarioV4] false) scenarioRequest).exit = .returned →
        (handleAdd (scenarioEnv [scenarioV4] false) scenarioRequest).writes = 1) ∧
      ∀ status body,
        (status, body) ∈ (handleAdd (scenarioEnv [scenarioV4] false) scenarioRequest).responses →
        (successStatus status = false →
          body.Err ≠ "" ∧ body.IPAddress = [] ∧ body.HostInterface = "") ∧
        (successStatus status = true → body.Err = "")) ∧
    (handleAdd (scenarioEnv [scenarioV4] false) scenarioRequest).exit = .returned ∧
    (handleAdd (scenarioEnv [scenarioV4] false) scenarioRequest).responses =
      [(200, scenarioResponse)] ∧
    (handleDel (scenarioEnv [scenarioV4] false) scenarioRequest).trace =
      [Event.deleteNic "/proc/4242/ns/net", Event.writeHeader 204] :=
  ⟨handlers_one_exclusive_response (scenarioEnv [scenarioV4] false) scenarioRequest
      (handleAdd (scenarioEnv [scenarioV4] false) scenarioRequest) (Or.inl rfl),
    by decide, by decide, by decide⟩

/-! ## Workload kinds -/

namespace Strategy

/-- The split is never empty, joining its pieces with commas gives the text
back, and no piece contains a comma. -/
theorem splitComma_spec (cs : List Char) :
    splitComma cs ≠ [] ∧ List.intercalate [','] (splitComma cs) = cs ∧
    ∀ piece ∈ splitComma cs, ',' ∉ piece := by
  induction cs with
  | nil => simp [splitComma, List.intercalate]
  | cons c cs ih =>
    obtain ⟨hne, hjoin, hfree⟩ := ih
    unfold splitComma
    by_cases hc : c = ','
    · rw [if_pos hc]
      refine ⟨by simp, ?_, ?_⟩
      · cases hs : splitComma cs with
        | nil => exact absurd hs hne
        | cons piece pieces =>
          rw [hs] at hjoin
          rw [← hjoin, hc]
          simp [List.intercalate, List.intersperse]
      · intro piece hp
        rcases List.mem_cons.mp hp with rfl | hp
        · simp
        · exact hfree piece hp
    · rw [if_neg hc]
      cases hs : splitComma cs with
      | nil => exact absurd hs hne
      | cons piece pieces =>
        rw [hs] at hjoin hfree
        refine ⟨by simp, ?_, ?_⟩
        · rw [← hjoin]
          cases pieces <;> simp [List.intercalate, List.intersperse]
        · intro q hq
          rcases List.mem_cons.mp hq with rfl | hq
          · intro hmem
            rcases List.mem_cons.mp hmem with h | h
            · exact hc h.symm
            · exact hfree piece (by simp) h
          · exact hfree q (by simp [hq])

/-- A text has positive length exactly when it is not empty. -/
theorem length_pos_iff (s : String) : 0 < s.length ↔ s ≠ "" := by
  constructor
  · intro h hc
    rw [hc] at h
    exact absurd h (by decide)
  · intro h
    rcases Nat.eq_zero_or_pos s.length with h0 | hpos
    · exact absurd (String.ext (List.length_eq_zero.mp h0)) h
    · exact hpos

theorem setTrue_mem (m : List String) (kind k : String) :
    k ∈ setTrue m kind ↔ k ∈ m ∨ k = kind := by
  unfold setTrue
  by_cases h : m.contains kind = true
  · rw [if_pos h]
    constructor
    · exact Or.inl
    · rintro (hk | rfl)
      · exact hk
      · simpa using h
  · rw [if_neg h]
    simp

/-- The keys after the loop: those before it, and the non-empty pieces. -/
theorem addKinds_mem (k : String) :
    ∀ (kinds m : List String), k ∈ addKinds m kinds ↔ k ∈ m ∨ (k ∈ kinds ∧ k ≠ "") := by
  intro kinds
  induction kinds with
  | nil => intro m; simp [addKinds]
  | cons kind rest ih =>
    intro m
    unfold addKinds
    by_cases hlen : 0 < kind.length
    · rw [if_pos hlen, ih, setTrue_mem]
      have hne := (length_pos_iff kind).mp hlen
      constructor
      · rintro ((hm | rfl) | ⟨hr, hk⟩)
        · exact Or.inl hm
        · exact Or.inr ⟨by simp, hne⟩
        · exact Or.inr ⟨by simp [hr], hk⟩
      · rintro (hm | ⟨hmem, hk⟩)
        · exact Or.inl (Or.inl hm)
        · rcases List.mem_cons.mp hmem with rfl | hr
          · exact Or.inl (Or.inr rfl)
          · exact Or.inr ⟨hr, hk⟩
    · rw [if_neg hlen, ih]
      have he : kind = "" := by
        by_contra hc
        exact hlen ((length_pos_iff kind).mpr hc)
      constructor
      · rintro (hm | ⟨hr, hk⟩)
        · exact Or.inl hm
        · exact Or.inr ⟨by simp [hr], hk⟩
      · rintro (hm | ⟨hmem, hk⟩)
        · exact Or.inl hm
        · rcases List.mem_cons.mp hmem with rfl | hr
          · exact absurd he hk
          · exact Or.inr ⟨hr, hk⟩

/-- The function `init` fills each map with the non-empty comma-separated
entries of the text its variable holds when `init` runs. -/
theorem init_kinds (p : Package) (k : String) :
    (k ∈ (init p).StatefulWorkloadKind ↔ k ∈ flagEntries p.statefulWorkloadKindVar) ∧
    (k ∈ (init p).StatelessWorkloadKind ↔ k ∈ flagEntries p.statelessWorkloadKindVar) := by
  simp [init, addKinds_mem, flagEntries, List.mem_filter]

/-- Whatever the command line, the stateful kinds of a running program are the
entries of the default, `StatefulSet` alone, and there are no stateless kinds;
the value given to a flag only reaches its variable. -/
theorem start_kinds (args : CommandLine) :
    (start args).StatefulWorkloadKind = ["StatefulSet"] ∧
    (start args).StatelessWorkloadKind = [] ∧
    (start args).statefulWorkloadKindVar = args.statefulWorkloadKinds.getD "StatefulSet" ∧
    (start args).statelessWorkloadKindVar = args.statelessWorkloadKinds.getD "" := by
  refine ⟨?_, ?_, rfl, rfl⟩
  · show addKinds [] (Split "StatefulSet") = ["StatefulSet"]
    decide
  · show addKinds [] (Split "") = []
    decide

/-- The function `OwnByStatefulWorkload` is true exactly for a pod with a
controller owner reference whose kind is a key of the map. -/
theorem OwnByStatefulWorkload_iff (p : Package) (pod : Pod) :
    OwnByStatefulWorkload p pod = true ↔
      ∃ ref, GetControllerOf pod = some ref ∧ ref.Kind ∈ p.StatefulWorkloadKind := by
  unfold OwnByStatefulWorkload
  cases hc : GetControllerOf pod with
  | none => simp
  | some ref => simp

/-- The function `GetKnownOwnReference` returns the controller owner reference
of a pod owned by a stateful workload, and nil for every other pod. -/
theorem GetKnownOwnReference_spec (p : Package) (pod : Pod) :
    (OwnByStatefulWorkload p pod = true →
      ∃ ref, GetControllerOf pod = some ref ∧ GetKnownOwnReference p pod = some ref) ∧
    (OwnByStatefulWorkload p pod = false → GetKnownOwnReference p pod = none) := by
  constructor
  · intro h
    obtain ⟨ref, href, -⟩ := (OwnByStatefulWorkload_iff p pod).mp h
    exact ⟨ref, href, by simp [GetKnownOwnReference, h, href]⟩
  · intro h
    simp [GetKnownOwnReference, h]

/-- In a running program, whatever the command line, a pod is owned by a
stateful workload exactly when its controller is of kind `StatefulSet`. -/
theorem start_OwnByStatefulWorkload (args : CommandLine) (pod : Pod) :
    OwnByStatefulWorkload (start args) pod = true ↔
      ∃ ref, GetControllerOf pod = some ref ∧ ref.Kind = "StatefulSet" := by
  rw [OwnByStatefulWorkload_iff, (start_kinds args).1]
  simp

/-- Without the flag on the command line, the stateful kinds are the non-empty
comma-separated entries of the value of the flag, its default. -/
theorem start_default_kinds (args : CommandLine) (hdefault : args.statefulWorkloadKinds = none)
    (k : String) :
    k ∈ (start args).StatefulWorkloadKind ↔
      k ∈ flagEntries (start args).statefulWorkloadKindVar := by
  obtain ⟨hkinds, -, hvar, -⟩ := start_kinds args
  rw [hkinds, hvar, hdefault]
  show k ∈ ["StatefulSet"] ↔ k ∈ flagEntries "StatefulSet"
  rw [show flagEntries "StatefulSet" = ["StatefulSet"] by decide]

/-- C12, at two failing inputs. With `--stateful-workload-kinds` given as
`StatefulSet,AdvancedStatefulSet`, the variable of the flag holds that value but
the map holds `StatefulSet` alone: a pod whose controller is of kind
`AdvancedStatefulSet`, an entry of the value, is not owned by a stateful
workload and has no known owner reference. With the flag given as `Deployment`,
a pod whose controller is of kind `StatefulSet`, no entry of the value, is owned
by a stateful workload and its controller reference is returned. -/
theorem flag_value_not_used :
    ((start (statefulKindsFlag "StatefulSet,AdvancedStatefulSet")).statefulWorkloadKindVar =
        "StatefulSet,AdvancedStatefulSet" ∧
      flagEntries "StatefulSet,AdvancedStatefulSet" = ["StatefulSet", "AdvancedStatefulSet"] ∧
      (start (statefulKindsFlag "StatefulSet,AdvancedStatefulSet")).StatefulWorkloadKind =
        ["StatefulSet"] ∧
      (GetControllerOf (podControlledBy "AdvancedStatefulSet")).map (fun ref => ref.Kind) =
        some "AdvancedStatefulSet" ∧
      OwnByStatefulWorkload (start (statefulKindsFlag "StatefulSet,AdvancedStatefulSet"))
        (podControlledBy "AdvancedStatefulSet") = false ∧
      GetKnownOwnReference (start (statefulKindsFlag "StatefulSet,AdvancedStatefulSet"))
        (podControlledBy "AdvancedStatefulSet") = none) ∧
    (flagEntries "Deployment" = ["Deployment"] ∧
      (start (statefulKindsFlag "Deployment")).StatefulWorkloadKind = ["StatefulSet"] ∧
      OwnByStatefulWorkload (start (statefulKindsFlag "Deployment"))
        (podControlledBy "StatefulSet") = true ∧
      GetKnownOwnReference (start (statefulKindsFlag "Deployment"))
        (podControlledBy "StatefulSet") =
        GetControllerOf (podControlledBy "StatefulSet")) := by
  decide

end Strategy

end Hybridnet
